import Mathlib

set_option autoImplicit false

/-!
Verification development for the Pong-with-coins game (`src/main.cpp`,
`src/coin.h`).  The per-frame simulation loop of `main` is shallowly
embedded: float arithmetic is modelled by exact rationals, the C `int`
fields by `ℤ`, and the two sources of randomness (`rand()` draws for the
serve angle and for the coin spawn position) are supplied per frame
through an explicit environment record `Env`, mirroring the oracle view
of `rand()`.  The serve direction placed in the environment stands for
the already-normalized `(cos angle, sin angle)` pair that the C code
computes from an accepted random angle; the angle-level rejection
sampler itself is modelled over `ℝ` (`acceptAngle`, `launchDirReal`).
-/

/-! ### Constants (src/main.cpp lines 16-33) -/

def WINDOW_WIDTH : ℤ := 800
def WINDOW_HEIGHT : ℤ := 600
def BALL_DIAMETER : ℤ := 30
def BALL_RADIUS : ℤ := BALL_DIAMETER / 2
def INITIAL_BALL_SPEED : ℚ := 4
def BALL_BOOST_FACTOR : ℚ := 6/5
def BALL_BOOST_DURATION_FRAMES : ℤ := 30
def PADDLE_WIDTH : ℤ := 20
def PADDLE_HEIGHT : ℤ := 100
def PADDLE_SPEED : ℤ := 6
def COIN_APPEAR_INTERVAL_FRAMES : ℤ := 300
def COIN_DURATION_FRAMES : ℤ := 600

/-! ### Data model -/

/-- An `SDL_Rect`: integer position and size. -/
structure Rect where
  x : ℤ
  y : ℤ
  w : ℤ
  h : ℤ
deriving DecidableEq

/-- The `enum class LastHit` (src/main.cpp line 69). -/
inductive LastHit where
  | None
  | LeftPaddle
  | RightPaddle
deriving DecidableEq

/-- The coin record: float x, y and an int timer (src/main.cpp lines 55-60). -/
structure Coin where
  x : ℚ
  y : ℚ
  timer : ℤ
deriving DecidableEq

/-- The file-scope game state of src/main.cpp (lines 22-72), gathered in
one record: ball position/direction/speed, boost timer, the two paddles'
y coordinates (their x/w/h are constant), the coin list, the coin spawn
timer, both scores, the last-hit marker and both consecutive-hit
counters. -/
@[ext] structure GameState where
  ball_x : ℚ
  ball_y : ℚ
  ball_dx : ℚ
  ball_dy : ℚ
  current_ball_speed : ℚ
  ball_boost_timer : ℤ
  leftPaddleY : ℤ
  rightPaddleY : ℤ
  coins : List Coin
  coin_spawn_timer : ℤ
  left_score : ℤ
  right_score : ℤ
  last_ball_hit : LastHit
  left_consecutive_hits : ℤ
  right_consecutive_hits : ℤ
deriving DecidableEq

/-- Per-frame external inputs: the four movement keys queried through
`SDL_GetKeyboardState`, the serve direction the miss-reset would use
(standing for the normalized `(cos angle, sin angle)` of the accepted
random angle), the coin sprite's rendered size as returned by
`getCoinRenderedWidth/Height`, and the two `rand()` draws `spawnCoin`
would consume. -/
structure Env where
  keyW : Bool
  keyS : Bool
  keyUp : Bool
  keyDown : Bool
  serveDX : ℚ
  serveDY : ℚ
  coinW : ℤ
  coinH : ℤ
  spawnRX : ℕ
  spawnRY : ℕ
deriving DecidableEq

/-- Observable events of one frame, recorded while the step runs: the
`reflected_this_frame` flag, which paddle (if any) was hit, which side
boundary (if any) the ball crossed, and the coin points awarded to each
side this frame. -/
structure Events where
  reflected : Bool
  leftHit : Bool
  rightHit : Bool
  missLeft : Bool
  missRight : Bool
  coinLeftPts : ℤ
  coinRightPts : ℤ
deriving DecidableEq

/-! ### Collision utilities (src/main.cpp lines 99-111) -/

/-- Source `checkCircleRectCollision`: clamp the circle center into the
rectangle, then compare the squared distance with the squared radius
(strict `<`). -/
def checkCircleRectCollision (circleX circleY : ℚ) (circleRadius : ℤ) (rect : Rect) : Bool :=
  let closestX := max (rect.x : ℚ) (min circleX ((rect.x + rect.w : ℤ) : ℚ))
  let closestY := max (rect.y : ℚ) (min circleY ((rect.y + rect.h : ℤ) : ℚ))
  let distanceX := circleX - closestX
  let distanceY := circleY - closestY
  decide (distanceX * distanceX + distanceY * distanceY <
    ((circleRadius : ℚ) * (circleRadius : ℚ)))

/-- Source `checkRectRectCollision` = `SDL_HasIntersection`: the clipped
interval must be non-empty in both axes (strict inequalities; empty
rectangles never intersect, which the `max < min` form subsumes). -/
def checkRectRectCollision (rect1 rect2 : Rect) : Bool :=
  decide (max rect1.x rect2.x < min (rect1.x + rect1.w) (rect2.x + rect2.w) ∧
          max rect1.y rect2.y < min (rect1.y + rect1.h) (rect2.y + rect2.h))

/-- C `static_cast<int>` on a float value: truncation toward zero. -/
def truncQ (q : ℚ) : ℤ := if q < 0 then -⌊-q⌋ else ⌊q⌋

/-! ### Paddle movement and clamping (src/main.cpp lines 297-317) -/

/-- One paddle's per-frame update: move up/down by `PADDLE_SPEED` for
each held key (both `if`s, not `else if`), then clamp into
`[0, WINDOW_HEIGHT - PADDLE_HEIGHT]` with the two clamp `if`s. -/
def movePaddle (up down : Bool) (y : ℤ) : ℤ :=
  let y1 := if up then y - PADDLE_SPEED else y
  let y2 := if down then y1 + PADDLE_SPEED else y1
  let y3 := if y2 < 0 then 0 else y2
  if y3 + PADDLE_HEIGHT > WINDOW_HEIGHT then WINDOW_HEIGHT - PADDLE_HEIGHT else y3

/-- The `leftPaddle` rectangle at a given y (x = 0, src/main.cpp lines 41-46). -/
def leftPaddleRect (y : ℤ) : Rect := ⟨0, y, PADDLE_WIDTH, PADDLE_HEIGHT⟩

/-- The `rightPaddle` rectangle at a given y (x = WINDOW_WIDTH - PADDLE_WIDTH,
src/main.cpp lines 48-53). -/
def rightPaddleRect (y : ℤ) : Rect :=
  ⟨WINDOW_WIDTH - PADDLE_WIDTH, y, PADDLE_WIDTH, PADDLE_HEIGHT⟩

/-! ### Frame phases -/

/-- Paddle-movement phase of the frame (src/main.cpp lines 294-317). -/
def paddleMovePhase (env : Env) (s : GameState) : GameState :=
  { s with leftPaddleY := movePaddle env.keyW env.keyS s.leftPaddleY,
           rightPaddleY := movePaddle env.keyUp env.keyDown s.rightPaddleY }

/-- Ball integration: `position += direction * speed`
(src/main.cpp lines 320-321). -/
def integratePhase (s : GameState) : GameState :=
  { s with ball_x := s.ball_x + s.ball_dx * s.current_ball_speed,
           ball_y := s.ball_y + s.ball_dy * s.current_ball_speed }

/-- Wall collisions against the bottom and top edges (src/main.cpp
lines 326-335); returns the state together with the
`reflected_this_frame` contribution. -/
def wallPhase (s : GameState) : GameState × Bool :=
  if s.ball_y + (BALL_RADIUS : ℚ) > (WINDOW_HEIGHT : ℚ) then
    ({ s with ball_y := ((WINDOW_HEIGHT - BALL_RADIUS : ℤ) : ℚ),
              ball_dy := -|s.ball_dy| }, true)
  else if s.ball_y - (BALL_RADIUS : ℚ) < 0 then
    ({ s with ball_y := (BALL_RADIUS : ℚ), ball_dy := |s.ball_dy| }, true)
  else (s, false)

/-- Guard of the left-paddle collision branch: moving left and circle
overlapping the left paddle (src/main.cpp line 339). -/
def leftHitTest (s : GameState) : Bool :=
  decide (s.ball_dx < 0) &&
    checkCircleRectCollision s.ball_x s.ball_y BALL_RADIUS (leftPaddleRect s.leftPaddleY)

/-- Guard of the right-paddle collision branch (src/main.cpp line 361). -/
def rightHitTest (s : GameState) : Bool :=
  decide (s.ball_dx > 0) &&
    checkCircleRectCollision s.ball_x s.ball_y BALL_RADIUS (rightPaddleRect s.rightPaddleY)

/-- Consecutive-hit bookkeeping on a left-paddle hit (src/main.cpp
lines 346-357). -/
def scoreLeftHit (s : GameState) : GameState :=
  if s.last_ball_hit = LastHit.LeftPaddle then
    if s.left_consecutive_hits + 1 ≥ 2 then
      { s with left_score := s.left_score + 1,
               left_consecutive_hits := 0,
               last_ball_hit := LastHit.LeftPaddle }
    else
      { s with left_consecutive_hits := s.left_consecutive_hits + 1,
               last_ball_hit := LastHit.LeftPaddle }
  else
    { s with left_consecutive_hits := 1,
             right_consecutive_hits := 0,
             last_ball_hit := LastHit.LeftPaddle }

/-- Consecutive-hit bookkeeping on a right-paddle hit (src/main.cpp
lines 368-379). -/
def scoreRightHit (s : GameState) : GameState :=
  if s.last_ball_hit = LastHit.RightPaddle then
    if s.right_consecutive_hits + 1 ≥ 2 then
      { s with right_score := s.right_score + 1,
               right_consecutive_hits := 0,
               last_ball_hit := LastHit.RightPaddle }
    else
      { s with right_consecutive_hits := s.right_consecutive_hits + 1,
               last_ball_hit := LastHit.RightPaddle }
  else
    { s with right_consecutive_hits := 1,
             left_consecutive_hits := 0,
             last_ball_hit := LastHit.RightPaddle }

/-- Paddle-collision phase (src/main.cpp lines 339-380): the left branch
is tried first, the right one only `else if`; on a hit the ball is
pushed just outside the paddle face, the horizontal direction inverted,
and the consecutive-hit rule applied.  Returns
(state, hit left paddle, hit right paddle). -/
def paddlePhase (s : GameState) : GameState × Bool × Bool :=
  if leftHitTest s then
    (scoreLeftHit { s with ball_x := ((0 + PADDLE_WIDTH + BALL_RADIUS : ℤ) : ℚ),
                           ball_dx := |s.ball_dx| }, true, false)
  else if rightHitTest s then
    (scoreRightHit { s with ball_x := ((WINDOW_WIDTH - PADDLE_WIDTH - BALL_RADIUS : ℤ) : ℚ),
                            ball_dx := -|s.ball_dx| }, false, true)
  else (s, false, false)

/-- Ball reset shared by both miss branches (src/main.cpp lines 386-408
and 413-435): recenter, install the freshly sampled serve direction,
reset speed, clear the boost timer and the whole hit bookkeeping. -/
def resetBall (serveDX serveDY : ℚ) (s : GameState) : GameState :=
  { s with ball_x := (WINDOW_WIDTH : ℚ) / 2,
           ball_y := (WINDOW_HEIGHT : ℚ) / 2,
           ball_dx := serveDX,
           ball_dy := serveDY,
           current_ball_speed := INITIAL_BALL_SPEED,
           ball_boost_timer := 0,
           left_consecutive_hits := 0,
           right_consecutive_hits := 0,
           last_ball_hit := LastHit.None }

/-- Out-of-bounds phase (src/main.cpp lines 384-436): past the left edge
the right player scores, past the right edge the left player scores;
either branch resets the ball.  Returns (state, crossed left, crossed
right). -/
def missPhase (env : Env) (s : GameState) : GameState × Bool × Bool :=
  if s.ball_x - (BALL_RADIUS : ℚ) < 0 then
    (resetBall env.serveDX env.serveDY { s with right_score := s.right_score + 1 },
     true, false)
  else if s.ball_x + (BALL_RADIUS : ℚ) > (WINDOW_WIDTH : ℚ) then
    (resetBall env.serveDX env.serveDY { s with left_score := s.left_score + 1 },
     false, true)
  else (s, false, false)

/-- First boost block (src/main.cpp lines 440-443): a reflection
restarts the timer to the full duration and boosts the speed. -/
def boostApply (reflected : Bool) (s : GameState) : GameState :=
  if reflected then
    { s with ball_boost_timer := BALL_BOOST_DURATION_FRAMES,
             current_ball_speed := INITIAL_BALL_SPEED * BALL_BOOST_FACTOR }
  else s

/-- Second boost block (src/main.cpp lines 445-450): while the timer is
positive it decrements, and the speed reverts to the base value the
instant it reaches 0. -/
def boostTick (s : GameState) : GameState :=
  if s.ball_boost_timer > 0 then
    if s.ball_boost_timer - 1 = 0 then
      { s with ball_boost_timer := s.ball_boost_timer - 1,
               current_ball_speed := INITIAL_BALL_SPEED }
    else { s with ball_boost_timer := s.ball_boost_timer - 1 }
  else s

/-- Speed-boost phase (src/main.cpp lines 440-450), both blocks in
source order. -/
def boostPhase (reflected : Bool) (s : GameState) : GameState :=
  boostTick (boostApply reflected s)

/-- x position `spawnCoin` computes (src/main.cpp line 121): a random
value below `WINDOW_WIDTH - 2*PADDLE_WIDTH - coinEffectiveWidth`, offset
by `PADDLE_WIDTH + coinEffectiveWidth/2`.  The C `%` and `/` act on
non-negative ints here, where they agree with `ℤ`'s `%` and `/`. -/
def newCoinX (env : Env) : ℤ :=
  (env.spawnRX : ℤ) % (WINDOW_WIDTH - 2 * PADDLE_WIDTH - env.coinW)
    + PADDLE_WIDTH + env.coinW / 2

/-- y position `spawnCoin` computes (src/main.cpp line 123). -/
def newCoinY (env : Env) : ℤ :=
  (env.spawnRY : ℤ) % (WINDOW_HEIGHT - env.coinH) + env.coinH / 2

/-- Source `spawnCoin` (src/main.cpp lines 114-126): the spawned coin, from the
two `rand()` draws and the coin sprite's rendered size, with the full
`COIN_DURATION_FRAMES` lifetime. -/
def newCoin (env : Env) : Coin :=
  { x := ((newCoinX env : ℤ) : ℚ),
    y := ((newCoinY env : ℤ) : ℚ),
    timer := COIN_DURATION_FRAMES }

/-- Coin-spawn phase (src/main.cpp lines 453-457): increment the frame
counter; upon reaching the threshold, append a fresh coin and reset the
counter to 0. -/
def spawnPhase (env : Env) (s : GameState) : GameState :=
  if s.coin_spawn_timer + 1 ≥ COIN_APPEAR_INTERVAL_FRAMES then
    { s with coins := s.coins ++ [newCoin env], coin_spawn_timer := 0 }
  else { s with coin_spawn_timer := s.coin_spawn_timer + 1 }

/-- A coin's collision bounding box (src/main.cpp lines 475-480):
top-left at the float position minus half the rendered size, truncated
to int. -/
def coinRect (cw ch : ℤ) (c : Coin) : Rect :=
  ⟨truncQ (c.x - ((cw / 2 : ℤ) : ℚ)), truncQ (c.y - ((ch / 2 : ℤ) : ℚ)), cw, ch⟩

/-- Per-coin lifecycle and collection (src/main.cpp lines 466-518):
decrement the timer and expire (before any collision test); otherwise
test the ball first — awarding the side of `last_ball_hit`, nobody if it
is `None` — then the left paddle, then the right paddle, stopping at the
first match; a collected or expired coin is removed.  Returns
(surviving coin if any, points to left, points to right). -/
def processCoin (cw ch : ℤ) (ballX ballY : ℚ) (leftY rightY : ℤ) (last : LastHit)
    (c : Coin) : Option Coin × ℤ × ℤ :=
  if c.timer - 1 ≤ 0 then (none, 0, 0)
  else if checkCircleRectCollision ballX ballY BALL_RADIUS (coinRect cw ch c) then
    match last with
    | LastHit.LeftPaddle => (none, 1, 0)
    | LastHit.RightPaddle => (none, 0, 1)
    | LastHit.None => (none, 0, 0)
  else if checkRectRectCollision (leftPaddleRect leftY) (coinRect cw ch c) then (none, 1, 0)
  else if checkRectRectCollision (rightPaddleRect rightY) (coinRect cw ch c) then (none, 0, 1)
  else (some { c with timer := c.timer - 1 }, 0, 0)

/-- Coin iteration of the frame (src/main.cpp lines 466-519): every coin
is processed against the current ball, paddles and last-hit marker;
survivors keep their relative order (erase-while-scanning).  Returns the
state together with the coin points awarded to each side. -/
def coinPhaseE (env : Env) (s : GameState) : GameState × ℤ × ℤ :=
  let res := s.coins.map
    (processCoin env.coinW env.coinH s.ball_x s.ball_y s.leftPaddleY s.rightPaddleY
      s.last_ball_hit)
  let dl := (res.map (fun r => r.2.1)).sum
  let dr := (res.map (fun r => r.2.2)).sum
  ({ s with coins := res.filterMap (fun r => r.1),
            left_score := s.left_score + dl,
            right_score := s.right_score + dr }, dl, dr)

/-- Coin iteration, state part only. -/
def coinPhase (env : Env) (s : GameState) : GameState := (coinPhaseE env s).1

/-- One frame of the simulation loop (src/main.cpp lines 293-519), with
its observable events: paddle movement, ball integration, wall
collision, paddle collision, out-of-bounds scoring, boost logic, coin
spawn, coin lifecycle/collection — in exactly the source's order. -/
def stepE (env : Env) (s : GameState) : GameState × Events :=
  let s2 := integratePhase (paddleMovePhase env s)
  let w := wallPhase s2
  let p := paddlePhase w.1
  let m := missPhase env p.1
  let reflected := w.2 || p.2.1 || p.2.2
  let s6 := boostPhase reflected m.1
  let s7 := spawnPhase env s6
  let c := coinPhaseE env s7
  (c.1, { reflected := reflected, leftHit := p.2.1, rightHit := p.2.2,
          missLeft := m.2.1, missRight := m.2.2,
          coinLeftPts := c.2.1, coinRightPts := c.2.2 })

/-- One frame, state part only. -/
def step (env : Env) (s : GameState) : GameState := (stepE env s).1

/-- The game state at startup (src/main.cpp lines 36-72): ball
stationary at the window center, paddles vertically centered, no coins,
all counters zero. -/
def initialState : GameState :=
  { ball_x := (WINDOW_WIDTH : ℚ) / 2,
    ball_y := (WINDOW_HEIGHT : ℚ) / 2,
    ball_dx := 0,
    ball_dy := 0,
    current_ball_speed := INITIAL_BALL_SPEED,
    ball_boost_timer := 0,
    leftPaddleY := (WINDOW_HEIGHT - PADDLE_HEIGHT) / 2,
    rightPaddleY := (WINDOW_HEIGHT - PADDLE_HEIGHT) / 2,
    coins := [],
    coin_spawn_timer := 0,
    left_score := 0,
    right_score := 0,
    last_ball_hit := LastHit.None,
    left_consecutive_hits := 0,
    right_consecutive_hits := 0 }

/-- Mouse-button launch handler (src/main.cpp lines 260-289): only while
the velocity is exactly zero and the click lands within the ball's
radius (`sqrt((mx-x)² + (my-y)²) ≤ r`, stated equivalently on squares
since both sides are non-negative) is the freshly sampled direction
`dir` installed, the speed reset to the base value and the boost timer
cleared. -/
def launch (dir : ℚ × ℚ) (mouseX mouseY : ℤ) (s : GameState) : GameState :=
  if s.ball_dx = 0 ∧ s.ball_dy = 0 ∧
      ((mouseX : ℚ) - s.ball_x) ^ 2 + ((mouseY : ℚ) - s.ball_y) ^ 2 ≤
        ((BALL_RADIUS : ℚ)) ^ 2 then
    { s with ball_dx := dir.1, ball_dy := dir.2,
             current_ball_speed := INITIAL_BALL_SPEED,
             ball_boost_timer := 0 }
  else s

/-! ### The angle sampler over ℝ (src/main.cpp lines 271-284, 390-402,
417-429) -/

/-- Exit condition of the `do { angle = ... } while (|sin| < 0.2 ||
|cos| < 0.2)` rejection loop: the loop leaves only angles for which the
guard is false. -/
def acceptAngle (angle : ℝ) : Prop :=
  ¬ (|Real.sin angle| < 0.2 ∨ |Real.cos angle| < 0.2)

/-- The direction built from an accepted angle (src/main.cpp lines
276-284): `(cos angle, sin angle)`, then divided by its magnitude when
that is nonzero. -/
noncomputable def launchDirReal (angle : ℝ) : ℝ × ℝ :=
  let dx := Real.cos angle
  let dy := Real.sin angle
  let magnitude := Real.sqrt (dx * dx + dy * dy)
  if magnitude ≠ 0 then (dx / magnitude, dy / magnitude) else (dx, dy)

/-- States reachable from startup by frames of the simulation loop and
mouse-launch events. -/
inductive Reachable : GameState → Prop
  | init : Reachable initialState
  | frame (env : Env) (s : GameState) : Reachable s → Reachable (step env s)
  | click (dir : ℚ × ℚ) (mx my : ℤ) (s : GameState) :
      Reachable s → Reachable (launch dir mx my s)

/-- A run of `n` consecutive frames in each of which no reflection
occurred (the frames may still contain misses). -/
inductive NoReflectRun : ℕ → GameState → GameState → Prop
  | zero (s : GameState) : NoReflectRun 0 s s
  | succ (env : Env) (n : ℕ) (s u : GameState) :
      (stepE env s).2.reflected = false →
      NoReflectRun n (step env s) u →
      NoReflectRun (n + 1) s u

/-- A run of frames between two left-paddle hits in which neither
paddle is hit, no miss occurs, and no coin point is awarded to the left
side. -/
inductive QuietLeftRun : GameState → GameState → Prop
  | refl (s : GameState) : QuietLeftRun s s
  | cons (env : Env) (s u : GameState) :
      (stepE env s).2.leftHit = false →
      (stepE env s).2.rightHit = false →
      (stepE env s).2.missLeft = false →
      (stepE env s).2.missRight = false →
      (stepE env s).2.coinLeftPts = 0 →
      QuietLeftRun (step env s) u →
      QuietLeftRun s u

/-- Mirror of `QuietLeftRun` for the right side. -/
inductive QuietRightRun : GameState → GameState → Prop
  | refl (s : GameState) : QuietRightRun s s
  | cons (env : Env) (s u : GameState) :
      (stepE env s).2.leftHit = false →
      (stepE env s).2.rightHit = false →
      (stepE env s).2.missLeft = false →
      (stepE env s).2.missRight = false →
      (stepE env s).2.coinRightPts = 0 →
      QuietRightRun (step env s) u →
      QuietRightRun s u

/-- An idle environment: no keys held, a fixed admissible serve
direction, the default 32-pixel coin sprite at scale 0.8 (rendered size
25), and given spawn draws. -/
def idleEnv (rx ry : ℕ) : Env :=
  { keyW := false, keyS := false, keyUp := false, keyDown := false,
    serveDX := 3/5, serveDY := 4/5, coinW := 25, coinH := 25,
    spawnRX := rx, spawnRY := ry }

/-- The startup state with the coin-spawn counter advanced to `n`. -/
def idleState (n : ℤ) : GameState := { initialState with coin_spawn_timer := n }

/-- A coin at (600, 100) — away from the center ball and both paddle
columns — with `t` frames of lifetime left. -/
def c9Coin (t : ℤ) : Coin := { x := 600, y := 100, timer := t }

/-- The startup state holding exactly the coin `c9Coin t`. -/
def c9State (t : ℤ) : GameState := { initialState with coins := [c9Coin t] }

/-- A state about to cross the top wall and the left edge in the same
frame: ball at (16, 18) moving up-left with the left paddle parked at
the bottom of the window. -/
def c1cexState : GameState :=
  { ball_x := 16, ball_y := 18, ball_dx := -3/5, ball_dy := -4/5,
    current_ball_speed := 4, ball_boost_timer := 0,
    leftPaddleY := 500, rightPaddleY := 250, coins := [], coin_spawn_timer := 0,
    left_score := 0, right_score := 0, last_ball_hit := LastHit.None,
    left_consecutive_hits := 0, right_consecutive_hits := 0 }

/-- A state about to cross the left edge with no wall or paddle contact:
ball at (10, 100) moving down-left, far above the left paddle. -/
def c1wState : GameState :=
  { ball_x := 10, ball_y := 100, ball_dx := -3/5, ball_dy := 4/5,
    current_ball_speed := 4, ball_boost_timer := 0,
    leftPaddleY := 250, rightPaddleY := 250, coins := [], coin_spawn_timer := 0,
    left_score := 0, right_score := 0, last_ball_hit := LastHit.None,
    left_consecutive_hits := 0, right_consecutive_hits := 0 }

/-- A state about to strike the left paddle: ball at (30, 300) moving
left into the paddle at its vertical center. -/
def c2LeftState : GameState :=
  { ball_x := 30, ball_y := 300, ball_dx := -3/5, ball_dy := 4/5,
    current_ball_speed := 4, ball_boost_timer := 0,
    leftPaddleY := 250, rightPaddleY := 250, coins := [], coin_spawn_timer := 0,
    left_score := 0, right_score := 0, last_ball_hit := LastHit.None,
    left_consecutive_hits := 0, right_consecutive_hits := 0 }

/-- State `c2LeftState` with the left paddle recorded as the previous striker
and an open streak of one. -/
def c2LeftState2 : GameState :=
  { c2LeftState with last_ball_hit := LastHit.LeftPaddle, left_consecutive_hits := 1 }

/-- A state about to strike the right paddle. -/
def c2RightState : GameState :=
  { ball_x := 770, ball_y := 300, ball_dx := 3/5, ball_dy := 4/5,
    current_ball_speed := 4, ball_boost_timer := 0,
    leftPaddleY := 250, rightPaddleY := 250, coins := [], coin_spawn_timer := 0,
    left_score := 0, right_score := 0, last_ball_hit := LastHit.None,
    left_consecutive_hits := 0, right_consecutive_hits := 0 }

/-- State `c2RightState` with the right paddle recorded as the previous
striker and an open streak of one. -/
def c2RightState2 : GameState :=
  { c2RightState with last_ball_hit := LastHit.RightPaddle, right_consecutive_hits := 1 }

/-- A state about to bounce off the top wall away from both paddles. -/
def c3wState : GameState :=
  { ball_x := 400, ball_y := 17, ball_dx := 3/5, ball_dy := -4/5,
    current_ball_speed := 4, ball_boost_timer := 0,
    leftPaddleY := 250, rightPaddleY := 250, coins := [], coin_spawn_timer := 0,
    left_score := 0, right_score := 0, last_ball_hit := LastHit.None,
    left_consecutive_hits := 0, right_consecutive_hits := 0 }

/-- A mid-boost state (timer 3) in a frame with no contact at all. -/
def c3wState2 : GameState :=
  { ball_x := 400, ball_y := 300, ball_dx := 3/5, ball_dy := 4/5,
    current_ball_speed := 24/5, ball_boost_timer := 3,
    leftPaddleY := 250, rightPaddleY := 250, coins := [], coin_spawn_timer := 0,
    left_score := 0, right_score := 0, last_ball_hit := LastHit.None,
    left_consecutive_hits := 0, right_consecutive_hits := 0 }

/-- A state about to cross the bottom wall. -/
def c6wState : GameState :=
  { ball_x := 400, ball_y := 590, ball_dx := 3/5, ball_dy := 4/5,
    current_ball_speed := 4, ball_boost_timer := 0,
    leftPaddleY := 250, rightPaddleY := 250, coins := [], coin_spawn_timer := 0,
    left_score := 0, right_score := 0, last_ball_hit := LastHit.None,
    left_consecutive_hits := 0, right_consecutive_hits := 0 }

/-- A state about to cross the top wall. -/
def c6wState2 : GameState :=
  { ball_x := 400, ball_y := 10, ball_dx := 3/5, ball_dy := -4/5,
    current_ball_speed := 4, ball_boost_timer := 0,
    leftPaddleY := 250, rightPaddleY := 250, coins := [], coin_spawn_timer := 0,
    left_score := 0, right_score := 0, last_ball_hit := LastHit.None,
    left_consecutive_hits := 0, right_consecutive_hits := 0 }

/-! ### Phase characterization and preservation lemmas -/

theorem wallPhase_keep (s : GameState) :
    (wallPhase s).1.ball_x = s.ball_x ∧ (wallPhase s).1.ball_dx = s.ball_dx ∧
    (wallPhase s).1.current_ball_speed = s.current_ball_speed ∧
    (wallPhase s).1.ball_boost_timer = s.ball_boost_timer ∧
    (wallPhase s).1.leftPaddleY = s.leftPaddleY ∧
    (wallPhase s).1.rightPaddleY = s.rightPaddleY ∧
    (wallPhase s).1.coins = s.coins ∧
    (wallPhase s).1.coin_spawn_timer = s.coin_spawn_timer ∧
    (wallPhase s).1.left_score = s.left_score ∧
    (wallPhase s).1.right_score = s.right_score ∧
    (wallPhase s).1.last_ball_hit = s.last_ball_hit ∧
    (wallPhase s).1.left_consecutive_hits = s.left_consecutive_hits ∧
    (wallPhase s).1.right_consecutive_hits = s.right_consecutive_hits := by
  unfold wallPhase; split_ifs <;> simp

theorem wallPhase_bottom (s : GameState)
    (h : s.ball_y + (BALL_RADIUS : ℚ) > (WINDOW_HEIGHT : ℚ)) :
    wallPhase s = ({ s with ball_y := ((WINDOW_HEIGHT - BALL_RADIUS : ℤ) : ℚ),
                            ball_dy := -|s.ball_dy| }, true) := by
  unfold wallPhase; rw [if_pos h]

theorem wallPhase_top (s : GameState)
    (h1 : ¬ s.ball_y + (BALL_RADIUS : ℚ) > (WINDOW_HEIGHT : ℚ))
    (h2 : s.ball_y - (BALL_RADIUS : ℚ) < 0) :
    wallPhase s = ({ s with ball_y := (BALL_RADIUS : ℚ), ball_dy := |s.ball_dy| }, true) := by
  unfold wallPhase; rw [if_neg h1, if_pos h2]

theorem wallPhase_none (s : GameState)
    (h1 : ¬ s.ball_y + (BALL_RADIUS : ℚ) > (WINDOW_HEIGHT : ℚ))
    (h2 : ¬ s.ball_y - (BALL_RADIUS : ℚ) < 0) :
    wallPhase s = (s, false) := by
  unfold wallPhase; rw [if_neg h1, if_neg h2]

theorem scoreLeftHit_keep (s : GameState) :
    (scoreLeftHit s).ball_x = s.ball_x ∧ (scoreLeftHit s).ball_y = s.ball_y ∧
    (scoreLeftHit s).ball_dx = s.ball_dx ∧ (scoreLeftHit s).ball_dy = s.ball_dy ∧
    (scoreLeftHit s).current_ball_speed = s.current_ball_speed ∧
    (scoreLeftHit s).ball_boost_timer = s.ball_boost_timer ∧
    (scoreLeftHit s).leftPaddleY = s.leftPaddleY ∧
    (scoreLeftHit s).rightPaddleY = s.rightPaddleY ∧
    (scoreLeftHit s).coins = s.coins ∧
    (scoreLeftHit s).coin_spawn_timer = s.coin_spawn_timer ∧
    (scoreLeftHit s).right_score = s.right_score ∧
    (scoreLeftHit s).last_ball_hit = LastHit.LeftPaddle := by
  unfold scoreLeftHit; split_ifs <;> simp

theorem scoreRightHit_keep (s : GameState) :
    (scoreRightHit s).ball_x = s.ball_x ∧ (scoreRightHit s).ball_y = s.ball_y ∧
    (scoreRightHit s).ball_dx = s.ball_dx ∧ (scoreRightHit s).ball_dy = s.ball_dy ∧
    (scoreRightHit s).current_ball_speed = s.current_ball_speed ∧
    (scoreRightHit s).ball_boost_timer = s.ball_boost_timer ∧
    (scoreRightHit s).leftPaddleY = s.leftPaddleY ∧
    (scoreRightHit s).rightPaddleY = s.rightPaddleY ∧
    (scoreRightHit s).coins = s.coins ∧
    (scoreRightHit s).coin_spawn_timer = s.coin_spawn_timer ∧
    (scoreRightHit s).left_score = s.left_score ∧
    (scoreRightHit s).last_ball_hit = LastHit.RightPaddle := by
  unfold scoreRightHit; split_ifs <;> simp

theorem paddlePhase_left (s : GameState) (h : leftHitTest s = true) :
    paddlePhase s =
      (scoreLeftHit { s with ball_x := ((0 + PADDLE_WIDTH + BALL_RADIUS : ℤ) : ℚ),
                             ball_dx := |s.ball_dx| }, true, false) := by
  unfold paddlePhase; rw [if_pos h]

theorem paddlePhase_right (s : GameState) (h1 : ¬ leftHitTest s = true)
    (h2 : rightHitTest s = true) :
    paddlePhase s =
      (scoreRightHit { s with ball_x := ((WINDOW_WIDTH - PADDLE_WIDTH - BALL_RADIUS : ℤ) : ℚ),
                              ball_dx := -|s.ball_dx| }, false, true) := by
  unfold paddlePhase; rw [if_neg h1, if_pos h2]

theorem paddlePhase_none (s : GameState) (h1 : ¬ leftHitTest s = true)
    (h2 : ¬ rightHitTest s = true) :
    paddlePhase s = (s, false, false) := by
  unfold paddlePhase; rw [if_neg h1, if_neg h2]

theorem paddlePhase_left_iff (s : GameState) :
    (paddlePhase s).2.1 = true ↔ leftHitTest s = true := by
  unfold paddlePhase; split_ifs with h1 h2 <;> simp [h1]

theorem paddlePhase_right_iff (s : GameState) :
    (paddlePhase s).2.2 = true ↔ (¬ leftHitTest s = true ∧ rightHitTest s = true) := by
  unfold paddlePhase
  split_ifs with h1 h2
  · simp [h1]
  · simp [h1, h2]
  · simp [h1, h2]

theorem missPhase_left (env : Env) (s : GameState)
    (h : s.ball_x - (BALL_RADIUS : ℚ) < 0) :
    missPhase env s =
      (resetBall env.serveDX env.serveDY { s with right_score := s.right_score + 1 },
       true, false) := by
  unfold missPhase; rw [if_pos h]

theorem missPhase_right (env : Env) (s : GameState)
    (h1 : ¬ s.ball_x - (BALL_RADIUS : ℚ) < 0)
    (h2 : s.ball_x + (BALL_RADIUS : ℚ) > (WINDOW_WIDTH : ℚ)) :
    missPhase env s =
      (resetBall env.serveDX env.serveDY { s with left_score := s.left_score + 1 },
       false, true) := by
  unfold missPhase; rw [if_neg h1, if_pos h2]

theorem missPhase_none (env : Env) (s : GameState)
    (h1 : ¬ s.ball_x - (BALL_RADIUS : ℚ) < 0)
    (h2 : ¬ s.ball_x + (BALL_RADIUS : ℚ) > (WINDOW_WIDTH : ℚ)) :
    missPhase env s = (s, false, false) := by
  unfold missPhase; rw [if_neg h1, if_neg h2]

theorem boostApply_true (s : GameState) :
    boostApply true s =
      { s with ball_boost_timer := BALL_BOOST_DURATION_FRAMES,
               current_ball_speed := INITIAL_BALL_SPEED * BALL_BOOST_FACTOR } := by
  unfold boostApply; simp

theorem boostApply_false (s : GameState) : boostApply false s = s := by
  unfold boostApply; simp

theorem boostPhase_true (s : GameState) :
    boostPhase true s =
      { s with ball_boost_timer := BALL_BOOST_DURATION_FRAMES - 1,
               current_ball_speed := INITIAL_BALL_SPEED * BALL_BOOST_FACTOR } := by
  unfold boostPhase boostTick
  rw [boostApply_true]
  norm_num [BALL_BOOST_DURATION_FRAMES]

theorem boostPhase_false_zero (s : GameState) (h : ¬ s.ball_boost_timer > 0) :
    boostPhase false s = s := by
  unfold boostPhase boostTick
  rw [boostApply_false, if_neg h]

theorem boostPhase_false_one (s : GameState) (h : s.ball_boost_timer = 1) :
    boostPhase false s =
      { s with ball_boost_timer := 0, current_ball_speed := INITIAL_BALL_SPEED } := by
  unfold boostPhase boostTick
  rw [boostApply_false]
  rw [if_pos (by omega), if_pos (by omega), h]
  norm_num

theorem boostPhase_false_many (s : GameState) (h : s.ball_boost_timer > 1) :
    boostPhase false s = { s with ball_boost_timer := s.ball_boost_timer - 1 } := by
  unfold boostPhase boostTick
  rw [boostApply_false]
  rw [if_pos (by omega), if_neg (by omega)]

theorem boostPhase_keep (r : Bool) (s : GameState) :
    (boostPhase r s).ball_x = s.ball_x ∧ (boostPhase r s).ball_y = s.ball_y ∧
    (boostPhase r s).ball_dx = s.ball_dx ∧ (boostPhase r s).ball_dy = s.ball_dy ∧
    (boostPhase r s).leftPaddleY = s.leftPaddleY ∧
    (boostPhase r s).rightPaddleY = s.rightPaddleY ∧
    (boostPhase r s).coins = s.coins ∧
    (boostPhase r s).coin_spawn_timer = s.coin_spawn_timer ∧
    (boostPhase r s).left_score = s.left_score ∧
    (boostPhase r s).right_score = s.right_score ∧
    (boostPhase r s).last_ball_hit = s.last_ball_hit ∧
    (boostPhase r s).left_consecutive_hits = s.left_consecutive_hits ∧
    (boostPhase r s).right_consecutive_hits = s.right_consecutive_hits := by
  unfold boostPhase boostTick boostApply; split_ifs <;> simp

theorem spawnPhase_trigger (env : Env) (s : GameState)
    (h : s.coin_spawn_timer + 1 ≥ COIN_APPEAR_INTERVAL_FRAMES) :
    spawnPhase env s = { s with coins := s.coins ++ [newCoin env], coin_spawn_timer := 0 } := by
  unfold spawnPhase; rw [if_pos h]

theorem spawnPhase_skip (env : Env) (s : GameState)
    (h : ¬ s.coin_spawn_timer + 1 ≥ COIN_APPEAR_INTERVAL_FRAMES) :
    spawnPhase env s = { s with coin_spawn_timer := s.coin_spawn_timer + 1 } := by
  unfold spawnPhase; rw [if_neg h]

theorem spawnPhase_keep (env : Env) (s : GameState) :
    (spawnPhase env s).ball_x = s.ball_x ∧ (spawnPhase env s).ball_y = s.ball_y ∧
    (spawnPhase env s).ball_dx = s.ball_dx ∧ (spawnPhase env s).ball_dy = s.ball_dy ∧
    (spawnPhase env s).current_ball_speed = s.current_ball_speed ∧
    (spawnPhase env s).ball_boost_timer = s.ball_boost_timer ∧
    (spawnPhase env s).leftPaddleY = s.leftPaddleY ∧
    (spawnPhase env s).rightPaddleY = s.rightPaddleY ∧
    (spawnPhase env s).left_score = s.left_score ∧
    (spawnPhase env s).right_score = s.right_score ∧
    (spawnPhase env s).last_ball_hit = s.last_ball_hit ∧
    (spawnPhase env s).left_consecutive_hits = s.left_consecutive_hits ∧
    (spawnPhase env s).right_consecutive_hits = s.right_consecutive_hits := by
  unfold spawnPhase; split_ifs <;> simp

theorem coinPhaseE_keep (env : Env) (s : GameState) :
    (coinPhaseE env s).1.ball_x = s.ball_x ∧ (coinPhaseE env s).1.ball_y = s.ball_y ∧
    (coinPhaseE env s).1.ball_dx = s.ball_dx ∧ (coinPhaseE env s).1.ball_dy = s.ball_dy ∧
    (coinPhaseE env s).1.current_ball_speed = s.current_ball_speed ∧
    (coinPhaseE env s).1.ball_boost_timer = s.ball_boost_timer ∧
    (coinPhaseE env s).1.leftPaddleY = s.leftPaddleY ∧
    (coinPhaseE env s).1.rightPaddleY = s.rightPaddleY ∧
    (coinPhaseE env s).1.coin_spawn_timer = s.coin_spawn_timer ∧
    (coinPhaseE env s).1.last_ball_hit = s.last_ball_hit ∧
    (coinPhaseE env s).1.left_consecutive_hits = s.left_consecutive_hits ∧
    (coinPhaseE env s).1.right_consecutive_hits = s.right_consecutive_hits := by
  unfold coinPhaseE; simp

theorem coinPhaseE_scores (env : Env) (s : GameState) :
    (coinPhaseE env s).1.left_score = s.left_score + (coinPhaseE env s).2.1 ∧
    (coinPhaseE env s).1.right_score = s.right_score + (coinPhaseE env s).2.2 := by
  unfold coinPhaseE; simp

theorem coinPhaseE_nil (env : Env) (s : GameState) (h : s.coins = []) :
    coinPhaseE env s = (s, 0, 0) := by
  unfold coinPhaseE
  rw [h]
  simp only [List.map_nil, List.sum_nil, List.filterMap_nil, add_zero, Prod.mk.injEq,
    and_true, true_and]
  ext <;> simp [h]

theorem missPhase_left_iff (env : Env) (s : GameState) :
    (missPhase env s).2.1 = true ↔ s.ball_x - (BALL_RADIUS : ℚ) < 0 := by
  unfold missPhase
  split_ifs with h1 h2
  · simp [h1]
  · simp [h1]
  · simp [h1]

theorem missPhase_right_iff (env : Env) (s : GameState) :
    (missPhase env s).2.2 = true ↔
      (¬ s.ball_x - (BALL_RADIUS : ℚ) < 0 ∧ s.ball_x + (BALL_RADIUS : ℚ) > (WINDOW_WIDTH : ℚ)) := by
  unfold missPhase
  split_ifs with h1 h2
  · simp [h1]
  · simp [h1, h2]
  · simp [h1, h2]

/-- All fields of the front of the frame (paddle movement, integration,
wall collision) that the wall phase does not touch, in terms of the
pre-frame state. -/
theorem frontPhases_keep (env : Env) (s : GameState) :
    (wallPhase (integratePhase (paddleMovePhase env s))).1.ball_x
        = s.ball_x + s.ball_dx * s.current_ball_speed ∧
    (wallPhase (integratePhase (paddleMovePhase env s))).1.ball_dx = s.ball_dx ∧
    (wallPhase (integratePhase (paddleMovePhase env s))).1.current_ball_speed
        = s.current_ball_speed ∧
    (wallPhase (integratePhase (paddleMovePhase env s))).1.ball_boost_timer
        = s.ball_boost_timer ∧
    (wallPhase (integratePhase (paddleMovePhase env s))).1.leftPaddleY
        = movePaddle env.keyW env.keyS s.leftPaddleY ∧
    (wallPhase (integratePhase (paddleMovePhase env s))).1.rightPaddleY
        = movePaddle env.keyUp env.keyDown s.rightPaddleY ∧
    (wallPhase (integratePhase (paddleMovePhase env s))).1.coins = s.coins ∧
    (wallPhase (integratePhase (paddleMovePhase env s))).1.coin_spawn_timer
        = s.coin_spawn_timer ∧
    (wallPhase (integratePhase (paddleMovePhase env s))).1.left_score = s.left_score ∧
    (wallPhase (integratePhase (paddleMovePhase env s))).1.right_score = s.right_score ∧
    (wallPhase (integratePhase (paddleMovePhase env s))).1.last_ball_hit = s.last_ball_hit ∧
    (wallPhase (integratePhase (paddleMovePhase env s))).1.left_consecutive_hits
        = s.left_consecutive_hits ∧
    (wallPhase (integratePhase (paddleMovePhase env s))).1.right_consecutive_hits
        = s.right_consecutive_hits := by
  have hk := wallPhase_keep (integratePhase (paddleMovePhase env s))
  refine ⟨?_, ?_, ?_, ?_, ?_, ?_, ?_, ?_, ?_, ?_, ?_, ?_, ?_⟩ <;>
    simp_all [integratePhase, paddleMovePhase]

/-- The tail of the frame (boost, spawn, coin collection) preserves the
hit bookkeeping, adds exactly the coin points to the scores, and leaves
ball position and direction unchanged. -/
theorem tailPhases_keep (env : Env) (r : Bool) (s : GameState) :
    (coinPhaseE env (spawnPhase env (boostPhase r s))).1.last_ball_hit = s.last_ball_hit ∧
    (coinPhaseE env (spawnPhase env (boostPhase r s))).1.left_consecutive_hits
        = s.left_consecutive_hits ∧
    (coinPhaseE env (spawnPhase env (boostPhase r s))).1.right_consecutive_hits
        = s.right_consecutive_hits ∧
    (coinPhaseE env (spawnPhase env (boostPhase r s))).1.left_score
        = s.left_score + (coinPhaseE env (spawnPhase env (boostPhase r s))).2.1 ∧
    (coinPhaseE env (spawnPhase env (boostPhase r s))).1.right_score
        = s.right_score + (coinPhaseE env (spawnPhase env (boostPhase r s))).2.2 ∧
    (coinPhaseE env (spawnPhase env (boostPhase r s))).1.ball_x = s.ball_x ∧
    (coinPhaseE env (spawnPhase env (boostPhase r s))).1.ball_y = s.ball_y ∧
    (coinPhaseE env (spawnPhase env (boostPhase r s))).1.ball_dx = s.ball_dx ∧
    (coinPhaseE env (spawnPhase env (boostPhase r s))).1.ball_dy = s.ball_dy ∧
    (coinPhaseE env (spawnPhase env (boostPhase r s))).1.current_ball_speed
        = (boostPhase r s).current_ball_speed ∧
    (coinPhaseE env (spawnPhase env (boostPhase r s))).1.ball_boost_timer
        = (boostPhase r s).ball_boost_timer := by
  have hb := boostPhase_keep r s
  have hs := spawnPhase_keep env (boostPhase r s)
  have hc := coinPhaseE_keep env (spawnPhase env (boostPhase r s))
  have hcs := coinPhaseE_scores env (spawnPhase env (boostPhase r s))
  refine ⟨?_, ?_, ?_, ?_, ?_, ?_, ?_, ?_, ?_, ?_, ?_⟩ <;> simp_all

theorem cast_ball_radius : ((BALL_RADIUS : ℤ) : ℚ) = 15 := by
  norm_num [BALL_RADIUS, BALL_DIAMETER]

/-- Full characterization of a frame in which the ball crosses the left
edge: no paddle hit can coexist with it, the ball is recentered with the
serve direction installed, the hit bookkeeping is cleared, the right
player gains the miss point plus this frame's right coin points — and
the end-of-frame speed and boost timer depend on whether a wall
reflection also occurred, because the boost block runs after the miss
reset and `reflected_this_frame` is still set. -/
theorem stepE_missLeft (env : Env) (s : GameState)
    (h : (stepE env s).2.missLeft = true) :
    (stepE env s).2.leftHit = false ∧ (stepE env s).2.rightHit = false ∧
    (stepE env s).1.ball_x = (WINDOW_WIDTH : ℚ) / 2 ∧
    (stepE env s).1.ball_y = (WINDOW_HEIGHT : ℚ) / 2 ∧
    (stepE env s).1.ball_dx = env.serveDX ∧
    (stepE env s).1.ball_dy = env.serveDY ∧
    (stepE env s).1.last_ball_hit = LastHit.None ∧
    (stepE env s).1.left_consecutive_hits = 0 ∧
    (stepE env s).1.right_consecutive_hits = 0 ∧
    (stepE env s).1.right_score = s.right_score + 1 + (stepE env s).2.coinRightPts ∧
    (stepE env s).1.left_score = s.left_score + (stepE env s).2.coinLeftPts ∧
    ((stepE env s).2.reflected = true →
        (stepE env s).1.current_ball_speed = INITIAL_BALL_SPEED * BALL_BOOST_FACTOR ∧
        (stepE env s).1.ball_boost_timer = BALL_BOOST_DURATION_FRAMES - 1) ∧
    ((stepE env s).2.reflected = false →
        (stepE env s).1.current_ball_speed = INITIAL_BALL_SPEED ∧
        (stepE env s).1.ball_boost_timer = 0) := by
  simp only [stepE] at h ⊢
  set s3 := (wallPhase (integratePhase (paddleMovePhase env s))).1 with hs3
  have hnl : ¬ leftHitTest s3 = true := by
    intro hl
    rw [paddlePhase_left s3 hl] at h
    simp only [missPhase_left_iff] at h
    rw [(scoreLeftHit_keep _).1] at h
    simp only [cast_ball_radius] at h
    norm_num [PADDLE_WIDTH, BALL_RADIUS, BALL_DIAMETER] at h
  have hnr : ¬ rightHitTest s3 = true := by
    intro hr
    rw [paddlePhase_right s3 hnl hr] at h
    simp only [missPhase_left_iff] at h
    rw [(scoreRightHit_keep _).1] at h
    simp only [cast_ball_radius] at h
    norm_num [WINDOW_WIDTH, PADDLE_WIDTH, BALL_RADIUS, BALL_DIAMETER] at h
  rw [paddlePhase_none s3 hnl hnr] at h ⊢
  simp only [missPhase_left_iff] at h
  rw [missPhase_left env s3 h]
  simp only [Bool.or_false]
  set r := (wallPhase (integratePhase (paddleMovePhase env s))).2 with hr
  set rb := resetBall env.serveDX env.serveDY
      { s3 with right_score := s3.right_score + 1 } with hrb
  have htail := tailPhases_keep env r rb
  obtain ⟨t1, t2, t3, t4, t5, t6, t7, t8, t9, t10, t11⟩ := htail
  have hfront := frontPhases_keep env s
  refine ⟨trivial, trivial, ?_, ?_, ?_, ?_, ?_, ?_, ?_, ?_, ?_, ?_, ?_⟩
  · rw [t6]; rfl
  · rw [t7]; rfl
  · rw [t8]; rfl
  · rw [t9]; rfl
  · rw [t1]; rfl
  · rw [t2]; rfl
  · rw [t3]; rfl
  · rw [t5]
    have : rb.right_score = s.right_score + 1 := by
      show (resetBall _ _ _).right_score = _
      unfold resetBall
      simp only []
      show s3.right_score + 1 = s.right_score + 1
      rw [hfront.2.2.2.2.2.2.2.2.2.1]
    rw [this]
  · rw [t4]
    have : rb.left_score = s.left_score := by
      show s3.left_score = s.left_score
      exact hfront.2.2.2.2.2.2.2.2.1
    rw [this]
  · intro hrefl
    rw [t10, t11, hrefl, boostPhase_true]
    exact ⟨rfl, rfl⟩
  · intro hrefl
    have hz : ¬ rb.ball_boost_timer > 0 := by
      show ¬ (0 : ℤ) > 0
      omega
    rw [t10, t11, hrefl, boostPhase_false_zero rb hz]
    exact ⟨rfl, rfl⟩

/-- Mirror image of `stepE_missLeft` for a frame in which the ball
crosses the right edge: the left player gains the miss point. -/
theorem stepE_missRight (env : Env) (s : GameState)
    (h : (stepE env s).2.missRight = true) :
    (stepE env s).2.leftHit = false ∧ (stepE env s).2.rightHit = false ∧
    (stepE env s).1.ball_x = (WINDOW_WIDTH : ℚ) / 2 ∧
    (stepE env s).1.ball_y = (WINDOW_HEIGHT : ℚ) / 2 ∧
    (stepE env s).1.ball_dx = env.serveDX ∧
    (stepE env s).1.ball_dy = env.serveDY ∧
    (stepE env s).1.last_ball_hit = LastHit.None ∧
    (stepE env s).1.left_consecutive_hits = 0 ∧
    (stepE env s).1.right_consecutive_hits = 0 ∧
    (stepE env s).1.left_score = s.left_score + 1 + (stepE env s).2.coinLeftPts ∧
    (stepE env s).1.right_score = s.right_score + (stepE env s).2.coinRightPts ∧
    ((stepE env s).2.reflected = true →
        (stepE env s).1.current_ball_speed = INITIAL_BALL_SPEED * BALL_BOOST_FACTOR ∧
        (stepE env s).1.ball_boost_timer = BALL_BOOST_DURATION_FRAMES - 1) ∧
    ((stepE env s).2.reflected = false →
        (stepE env s).1.current_ball_speed = INITIAL_BALL_SPEED ∧
        (stepE env s).1.ball_boost_timer = 0) := by
  simp only [stepE] at h ⊢
  set s3 := (wallPhase (integratePhase (paddleMovePhase env s))).1 with hs3
  have hnl : ¬ leftHitTest s3 = true := by
    intro hl
    rw [paddlePhase_left s3 hl] at h
    simp only [missPhase_right_iff] at h
    rw [(scoreLeftHit_keep _).1] at h
    simp only [cast_ball_radius] at h
    norm_num [WINDOW_WIDTH, PADDLE_WIDTH, BALL_RADIUS, BALL_DIAMETER] at h
  have hnr : ¬ rightHitTest s3 = true := by
    intro hr
    rw [paddlePhase_right s3 hnl hr] at h
    simp only [missPhase_right_iff] at h
    rw [(scoreRightHit_keep _).1] at h
    simp only [cast_ball_radius] at h
    norm_num [WINDOW_WIDTH, PADDLE_WIDTH, BALL_RADIUS, BALL_DIAMETER] at h
  rw [paddlePhase_none s3 hnl hnr] at h ⊢
  simp only [missPhase_right_iff] at h
  rw [missPhase_right env s3 h.1 h.2]
  simp only [Bool.or_false]
  set r := (wallPhase (integratePhase (paddleMovePhase env s))).2 with hr
  set rb := resetBall env.serveDX env.serveDY
      { s3 with left_score := s3.left_score + 1 } with hrb
  have htail := tailPhases_keep env r rb
  obtain ⟨t1, t2, t3, t4, t5, t6, t7, t8, t9, t10, t11⟩ := htail
  have hfront := frontPhases_keep env s
  refine ⟨trivial, trivial, ?_, ?_, ?_, ?_, ?_, ?_, ?_, ?_, ?_, ?_, ?_⟩
  · rw [t6]; rfl
  · rw [t7]; rfl
  · rw [t8]; rfl
  · rw [t9]; rfl
  · rw [t1]; rfl
  · rw [t2]; rfl
  · rw [t3]; rfl
  · rw [t4]
    have : rb.left_score = s.left_score + 1 := by
      show s3.left_score + 1 = s.left_score + 1
      rw [hfront.2.2.2.2.2.2.2.2.1]
    rw [this]
  · rw [t5]
    have : rb.right_score = s.right_score := by
      show s3.right_score = s.right_score
      exact hfront.2.2.2.2.2.2.2.2.2.1
    rw [this]
  · intro hrefl
    rw [t10, t11, hrefl, boostPhase_true]
    exact ⟨rfl, rfl⟩
  · intro hrefl
    have hz : ¬ rb.ball_boost_timer > 0 := by
      show ¬ (0 : ℤ) > 0
      omega
    rw [t10, t11, hrefl, boostPhase_false_zero rb hz]
    exact ⟨rfl, rfl⟩

theorem cast_left_repos : ((0 + PADDLE_WIDTH + BALL_RADIUS : ℤ) : ℚ) = 35 := by
  norm_num [PADDLE_WIDTH, BALL_RADIUS, BALL_DIAMETER]

theorem cast_right_repos : ((WINDOW_WIDTH - PADDLE_WIDTH - BALL_RADIUS : ℤ) : ℚ) = 765 := by
  norm_num [WINDOW_WIDTH, PADDLE_WIDTH, BALL_RADIUS, BALL_DIAMETER]

theorem scoreLeftHit_streak2 (s : GameState) (h1 : s.last_ball_hit = LastHit.LeftPaddle)
    (h2 : s.left_consecutive_hits + 1 ≥ 2) :
    (scoreLeftHit s).left_score = s.left_score + 1 ∧
    (scoreLeftHit s).left_consecutive_hits = 0 ∧
    (scoreLeftHit s).right_consecutive_hits = s.right_consecutive_hits := by
  unfold scoreLeftHit
  rw [if_pos h1, if_pos h2]
  exact ⟨rfl, rfl, rfl⟩

theorem scoreLeftHit_streak1 (s : GameState) (h1 : s.last_ball_hit = LastHit.LeftPaddle)
    (h2 : ¬ s.left_consecutive_hits + 1 ≥ 2) :
    (scoreLeftHit s).left_score = s.left_score ∧
    (scoreLeftHit s).left_consecutive_hits = s.left_consecutive_hits + 1 ∧
    (scoreLeftHit s).right_consecutive_hits = s.right_consecutive_hits := by
  unfold scoreLeftHit
  rw [if_pos h1, if_neg h2]
  exact ⟨rfl, rfl, rfl⟩

theorem scoreLeftHit_fresh (s : GameState) (h1 : ¬ s.last_ball_hit = LastHit.LeftPaddle) :
    (scoreLeftHit s).left_score = s.left_score ∧
    (scoreLeftHit s).left_consecutive_hits = 1 ∧
    (scoreLeftHit s).right_consecutive_hits = 0 := by
  unfold scoreLeftHit
  rw [if_neg h1]
  exact ⟨rfl, rfl, rfl⟩

theorem scoreRightHit_streak2 (s : GameState) (h1 : s.last_ball_hit = LastHit.RightPaddle)
    (h2 : s.right_consecutive_hits + 1 ≥ 2) :
    (scoreRightHit s).right_score = s.right_score + 1 ∧
    (scoreRightHit s).right_consecutive_hits = 0 ∧
    (scoreRightHit s).left_consecutive_hits = s.left_consecutive_hits := by
  unfold scoreRightHit
  rw [if_pos h1, if_pos h2]
  exact ⟨rfl, rfl, rfl⟩

theorem scoreRightHit_streak1 (s : GameState) (h1 : s.last_ball_hit = LastHit.RightPaddle)
    (h2 : ¬ s.right_consecutive_hits + 1 ≥ 2) :
    (scoreRightHit s).right_score = s.right_score ∧
    (scoreRightHit s).right_consecutive_hits = s.right_consecutive_hits + 1 ∧
    (scoreRightHit s).left_consecutive_hits = s.left_consecutive_hits := by
  unfold scoreRightHit
  rw [if_pos h1, if_neg h2]
  exact ⟨rfl, rfl, rfl⟩

theorem scoreRightHit_fresh (s : GameState) (h1 : ¬ s.last_ball_hit = LastHit.RightPaddle) :
    (scoreRightHit s).right_score = s.right_score ∧
    (scoreRightHit s).right_consecutive_hits = 1 ∧
    (scoreRightHit s).left_consecutive_hits = 0 := by
  unfold scoreRightHit
  rw [if_neg h1]
  exact ⟨rfl, rfl, rfl⟩

/-- Characterization of a frame whose left-paddle collision branch
fired: no miss can follow in the same frame (the ball is repositioned to
x = 35), the last-hit marker ends on the left paddle, and the scoring
counters change exactly by the consecutive-hit rule, the scores
additionally receiving this frame's coin points. -/
theorem stepE_leftHit (env : Env) (s : GameState)
    (h : (stepE env s).2.leftHit = true) :
    (stepE env s).2.missLeft = false ∧ (stepE env s).2.missRight = false ∧
    (stepE env s).1.last_ball_hit = LastHit.LeftPaddle ∧
    (stepE env s).1.right_score = s.right_score + (stepE env s).2.coinRightPts ∧
    (s.last_ball_hit = LastHit.LeftPaddle →
        (s.left_consecutive_hits + 1 ≥ 2 →
            (stepE env s).1.left_score = s.left_score + 1 + (stepE env s).2.coinLeftPts ∧
            (stepE env s).1.left_consecutive_hits = 0) ∧
        (¬ s.left_consecutive_hits + 1 ≥ 2 →
            (stepE env s).1.left_score = s.left_score + (stepE env s).2.coinLeftPts ∧
            (stepE env s).1.left_consecutive_hits = s.left_consecutive_hits + 1) ∧
        (stepE env s).1.right_consecutive_hits = s.right_consecutive_hits) ∧
    (¬ s.last_ball_hit = LastHit.LeftPaddle →
        (stepE env s).1.left_score = s.left_score + (stepE env s).2.coinLeftPts ∧
        (stepE env s).1.left_consecutive_hits = 1 ∧
        (stepE env s).1.right_consecutive_hits = 0) := by
  simp only [stepE] at h ⊢
  set s3 := (wallPhase (integratePhase (paddleMovePhase env s))).1 with hs3
  have hL : leftHitTest s3 = true := (paddlePhase_left_iff s3).mp h
  rw [paddlePhase_left s3 hL]
  set s3x : GameState :=
    { s3 with ball_x := ((0 + PADDLE_WIDTH + BALL_RADIUS : ℤ) : ℚ),
              ball_dx := |s3.ball_dx| } with hs3x
  have hux : (scoreLeftHit s3x).ball_x = 35 := by
    rw [(scoreLeftHit_keep s3x).1]
    show ((0 + PADDLE_WIDTH + BALL_RADIUS : ℤ) : ℚ) = 35
    exact cast_left_repos
  have hm1 : ¬ (scoreLeftHit s3x).ball_x - (BALL_RADIUS : ℚ) < 0 := by
    rw [hux, cast_ball_radius]; norm_num
  have hm2 : ¬ (scoreLeftHit s3x).ball_x + (BALL_RADIUS : ℚ) > (WINDOW_WIDTH : ℚ) := by
    rw [hux, cast_ball_radius]; norm_num [WINDOW_WIDTH]
  rw [missPhase_none env (scoreLeftHit s3x) hm1 hm2]
  set r := (wallPhase (integratePhase (paddleMovePhase env s))).2 with hrdef
  have htail := tailPhases_keep env (r || true || false) (scoreLeftHit s3x)
  obtain ⟨t1, t2, t3, t4, t5, t6, t7, t8, t9, t10, t11⟩ := htail
  have hfront := frontPhases_keep env s
  have hlast : s3x.last_ball_hit = s.last_ball_hit := hfront.2.2.2.2.2.2.2.2.2.2.1
  have hlch : s3x.left_consecutive_hits = s.left_consecutive_hits :=
    hfront.2.2.2.2.2.2.2.2.2.2.2.1
  have hrch : s3x.right_consecutive_hits = s.right_consecutive_hits :=
    hfront.2.2.2.2.2.2.2.2.2.2.2.2
  have hls : s3x.left_score = s.left_score := hfront.2.2.2.2.2.2.2.2.1
  have hrs : s3x.right_score = s.right_score := hfront.2.2.2.2.2.2.2.2.2.1
  refine ⟨rfl, rfl, ?_, ?_, ?_, ?_⟩
  · rw [t1, (scoreLeftHit_keep s3x).2.2.2.2.2.2.2.2.2.2.2]
  · rw [t5, (scoreLeftHit_keep s3x).2.2.2.2.2.2.2.2.2.2.1, hrs]
  · intro hcase
    have hcase3 : s3x.last_ball_hit = LastHit.LeftPaddle := by rw [hlast]; exact hcase
    refine ⟨?_, ?_, ?_⟩
    · intro hge
      have hge3 : s3x.left_consecutive_hits + 1 ≥ 2 := by rw [hlch]; exact hge
      obtain ⟨q1, q2, q3⟩ := scoreLeftHit_streak2 s3x hcase3 hge3
      constructor
      · rw [t4, q1, hls]
      · rw [t2, q2]
    · intro hlt
      have hlt3 : ¬ s3x.left_consecutive_hits + 1 ≥ 2 := by rw [hlch]; exact hlt
      obtain ⟨q1, q2, q3⟩ := scoreLeftHit_streak1 s3x hcase3 hlt3
      constructor
      · rw [t4, q1, hls]
      · rw [t2, q2, hlch]
    · by_cases hge : s3x.left_consecutive_hits + 1 ≥ 2
      · obtain ⟨q1, q2, q3⟩ := scoreLeftHit_streak2 s3x hcase3 hge
        rw [t3, q3, hrch]
      · obtain ⟨q1, q2, q3⟩ := scoreLeftHit_streak1 s3x hcase3 hge
        rw [t3, q3, hrch]
  · intro hcase
    have hcase3 : ¬ s3x.last_ball_hit = LastHit.LeftPaddle := by rw [hlast]; exact hcase
    obtain ⟨q1, q2, q3⟩ := scoreLeftHit_fresh s3x hcase3
    refine ⟨?_, ?_, ?_⟩
    · rw [t4, q1, hls]
    · rw [t2, q2]
    · rw [t3, q3]

/-- Mirror image of `stepE_leftHit` for the right paddle. -/
theorem stepE_rightHit (env : Env) (s : GameState)
    (h : (stepE env s).2.rightHit = true) :
    (stepE env s).2.missLeft = false ∧ (stepE env s).2.missRight = false ∧
    (stepE env s).1.last_ball_hit = LastHit.RightPaddle ∧
    (stepE env s).1.left_score = s.left_score + (stepE env s).2.coinLeftPts ∧
    (s.last_ball_hit = LastHit.RightPaddle →
        (s.right_consecutive_hits + 1 ≥ 2 →
            (stepE env s).1.right_score = s.right_score + 1 + (stepE env s).2.coinRightPts ∧
            (stepE env s).1.right_consecutive_hits = 0) ∧
        (¬ s.right_consecutive_hits + 1 ≥ 2 →
            (stepE env s).1.right_score = s.right_score + (stepE env s).2.coinRightPts ∧
            (stepE env s).1.right_consecutive_hits = s.right_consecutive_hits + 1) ∧
        (stepE env s).1.left_consecutive_hits = s.left_consecutive_hits) ∧
    (¬ s.last_ball_hit = LastHit.RightPaddle →
        (stepE env s).1.right_score = s.right_score + (stepE env s).2.coinRightPts ∧
        (stepE env s).1.right_consecutive_hits = 1 ∧
        (stepE env s).1.left_consecutive_hits = 0) := by
  simp only [stepE] at h ⊢
  set s3 := (wallPhase (integratePhase (paddleMovePhase env s))).1 with hs3
  obtain ⟨hnl, hR⟩ := (paddlePhase_right_iff s3).mp h
  rw [paddlePhase_right s3 hnl hR]
  set s3x : GameState :=
    { s3 with ball_x := ((WINDOW_WIDTH - PADDLE_WIDTH - BALL_RADIUS : ℤ) : ℚ),
              ball_dx := -|s3.ball_dx| } with hs3x
  have hux : (scoreRightHit s3x).ball_x = 765 := by
    rw [(scoreRightHit_keep s3x).1]
    show ((WINDOW_WIDTH - PADDLE_WIDTH - BALL_RADIUS : ℤ) : ℚ) = 765
    exact cast_right_repos
  have hm1 : ¬ (scoreRightHit s3x).ball_x - (BALL_RADIUS : ℚ) < 0 := by
    rw [hux, cast_ball_radius]; norm_num
  have hm2 : ¬ (scoreRightHit s3x).ball_x + (BALL_RADIUS : ℚ) > (WINDOW_WIDTH : ℚ) := by
    rw [hux, cast_ball_radius]; norm_num [WINDOW_WIDTH]
  rw [missPhase_none env (scoreRightHit s3x) hm1 hm2]
  set r := (wallPhase (integratePhase (paddleMovePhase env s))).2 with hrdef
  have htail := tailPhases_keep env (r || false || true) (scoreRightHit s3x)
  obtain ⟨t1, t2, t3, t4, t5, t6, t7, t8, t9, t10, t11⟩ := htail
  have hfront := frontPhases_keep env s
  have hlast : s3x.last_ball_hit = s.last_ball_hit := hfront.2.2.2.2.2.2.2.2.2.2.1
  have hlch : s3x.left_consecutive_hits = s.left_consecutive_hits :=
    hfront.2.2.2.2.2.2.2.2.2.2.2.1
  have hrch : s3x.right_consecutive_hits = s.right_consecutive_hits :=
    hfront.2.2.2.2.2.2.2.2.2.2.2.2
  have hls : s3x.left_score = s.left_score := hfront.2.2.2.2.2.2.2.2.1
  have hrs : s3x.right_score = s.right_score := hfront.2.2.2.2.2.2.2.2.2.1
  refine ⟨rfl, rfl, ?_, ?_, ?_, ?_⟩
  · rw [t1, (scoreRightHit_keep s3x).2.2.2.2.2.2.2.2.2.2.2]
  · rw [t4, (scoreRightHit_keep s3x).2.2.2.2.2.2.2.2.2.2.1, hls]
  · intro hcase
    have hcase3 : s3x.last_ball_hit = LastHit.RightPaddle := by rw [hlast]; exact hcase
    refine ⟨?_, ?_, ?_⟩
    · intro hge
      have hge3 : s3x.right_consecutive_hits + 1 ≥ 2 := by rw [hrch]; exact hge
      obtain ⟨q1, q2, q3⟩ := scoreRightHit_streak2 s3x hcase3 hge3
      constructor
      · rw [t5, q1, hrs]
      · rw [t3, q2]
    · intro hlt
      have hlt3 : ¬ s3x.right_consecutive_hits + 1 ≥ 2 := by rw [hrch]; exact hlt
      obtain ⟨q1, q2, q3⟩ := scoreRightHit_streak1 s3x hcase3 hlt3
      constructor
      · rw [t5, q1, hrs]
      · rw [t3, q2, hrch]
    · by_cases hge : s3x.right_consecutive_hits + 1 ≥ 2
      · obtain ⟨q1, q2, q3⟩ := scoreRightHit_streak2 s3x hcase3 hge
        rw [t2, q3, hlch]
      · obtain ⟨q1, q2, q3⟩ := scoreRightHit_streak1 s3x hcase3 hge
        rw [t2, q3, hlch]
  · intro hcase
    have hcase3 : ¬ s3x.last_ball_hit = LastHit.RightPaddle := by rw [hlast]; exact hcase
    obtain ⟨q1, q2, q3⟩ := scoreRightHit_fresh s3x hcase3
    refine ⟨?_, ?_, ?_⟩
    · rw [t5, q1, hrs]
    · rw [t3, q2]
    · rw [t2, q3]

/-- A frame with no paddle hit and no miss: the hit bookkeeping is
preserved, the scores change only by this frame's coin points, the
horizontal direction is untouched — and the boost timer evolves by the
boost block alone (full restart on a wall reflection; otherwise the
plain decrement with the revert at 0). -/
theorem stepE_quiet (env : Env) (s : GameState)
    (hL : (stepE env s).2.leftHit = false) (hR : (stepE env s).2.rightHit = false)
    (hML : (stepE env s).2.missLeft = false) (hMR : (stepE env s).2.missRight = false) :
    (stepE env s).1.last_ball_hit = s.last_ball_hit ∧
    (stepE env s).1.left_consecutive_hits = s.left_consecutive_hits ∧
    (stepE env s).1.right_consecutive_hits = s.right_consecutive_hits ∧
    (stepE env s).1.left_score = s.left_score + (stepE env s).2.coinLeftPts ∧
    (stepE env s).1.right_score = s.right_score + (stepE env s).2.coinRightPts ∧
    (stepE env s).1.ball_dx = s.ball_dx ∧
    ((stepE env s).2.reflected = true →
        (stepE env s).1.current_ball_speed = INITIAL_BALL_SPEED * BALL_BOOST_FACTOR ∧
        (stepE env s).1.ball_boost_timer = BALL_BOOST_DURATION_FRAMES - 1) ∧
    ((stepE env s).2.reflected = false →
        (¬ s.ball_boost_timer > 0 →
            (stepE env s).1.current_ball_speed = s.current_ball_speed ∧
            (stepE env s).1.ball_boost_timer = s.ball_boost_timer) ∧
        (s.ball_boost_timer = 1 →
            (stepE env s).1.current_ball_speed = INITIAL_BALL_SPEED ∧
            (stepE env s).1.ball_boost_timer = 0) ∧
        (s.ball_boost_timer > 1 →
            (stepE env s).1.current_ball_speed = s.current_ball_speed ∧
            (stepE env s).1.ball_boost_timer = s.ball_boost_timer - 1)) := by
  simp only [stepE] at hL hR hML hMR ⊢
  set s3 := (wallPhase (integratePhase (paddleMovePhase env s))).1 with hs3
  have hnl : ¬ leftHitTest s3 = true := by
    intro hl
    rw [(paddlePhase_left_iff s3).mpr hl] at hL
    exact Bool.true_eq_false.mp hL
  have hnr : ¬ rightHitTest s3 = true := by
    intro hr
    rw [(paddlePhase_right_iff s3).mpr ⟨hnl, hr⟩] at hR
    exact Bool.true_eq_false.mp hR
  rw [paddlePhase_none s3 hnl hnr] at hML hMR ⊢
  have hm1 : ¬ s3.ball_x - (BALL_RADIUS : ℚ) < 0 := by
    intro hc
    rw [(missPhase_left_iff env s3).mpr hc] at hML
    exact Bool.true_eq_false.mp hML
  have hm2 : ¬ s3.ball_x + (BALL_RADIUS : ℚ) > (WINDOW_WIDTH : ℚ) := by
    intro hc
    rw [(missPhase_right_iff env s3).mpr ⟨hm1, hc⟩] at hMR
    exact Bool.true_eq_false.mp hMR
  rw [missPhase_none env s3 hm1 hm2]
  simp only [Bool.or_false]
  set r := (wallPhase (integratePhase (paddleMovePhase env s))).2 with hrdef
  have htail := tailPhases_keep env r s3
  obtain ⟨t1, t2, t3, t4, t5, t6, t7, t8, t9, t10, t11⟩ := htail
  have hfront := frontPhases_keep env s
  have hdx : s3.ball_dx = s.ball_dx := hfront.2.1
  have hspeed : s3.current_ball_speed = s.current_ball_speed := hfront.2.2.1
  have htimer : s3.ball_boost_timer = s.ball_boost_timer := hfront.2.2.2.1
  refine ⟨?_, ?_, ?_, ?_, ?_, ?_, ?_, ?_⟩
  · rw [t1, hfront.2.2.2.2.2.2.2.2.2.2.1]
  · rw [t2, hfront.2.2.2.2.2.2.2.2.2.2.2.1]
  · rw [t3, hfront.2.2.2.2.2.2.2.2.2.2.2.2]
  · rw [t4, hfront.2.2.2.2.2.2.2.2.1]
  · rw [t5, hfront.2.2.2.2.2.2.2.2.2.1]
  · rw [t8, hdx]
  · intro hrefl
    rw [t10, t11, hrefl, boostPhase_true]
    exact ⟨rfl, rfl⟩
  · intro hrefl
    rw [hrefl] at t10 t11 ⊢
    refine ⟨?_, ?_, ?_⟩
    · intro hz
      have hz3 : ¬ s3.ball_boost_timer > 0 := by rw [htimer]; exact hz
      rw [t10, t11, boostPhase_false_zero s3 hz3]
      exact ⟨hspeed, htimer⟩
    · intro hone
      have hone3 : s3.ball_boost_timer = 1 := by rw [htimer]; exact hone
      rw [t10, t11, boostPhase_false_one s3 hone3]
      exact ⟨rfl, rfl⟩
    · intro hmany
      have hmany3 : s3.ball_boost_timer > 1 := by rw [htimer]; exact hmany
      rw [t10, t11, boostPhase_false_many s3 hmany3]
      refine ⟨hspeed, ?_⟩
      show s3.ball_boost_timer - 1 = s.ball_boost_timer - 1
      rw [htimer]

theorem paddlePhase_keep (s : GameState) :
    (paddlePhase s).1.ball_y = s.ball_y ∧ (paddlePhase s).1.ball_dy = s.ball_dy ∧
    (paddlePhase s).1.current_ball_speed = s.current_ball_speed ∧
    (paddlePhase s).1.ball_boost_timer = s.ball_boost_timer ∧
    (paddlePhase s).1.leftPaddleY = s.leftPaddleY ∧
    (paddlePhase s).1.rightPaddleY = s.rightPaddleY ∧
    (paddlePhase s).1.coins = s.coins ∧
    (paddlePhase s).1.coin_spawn_timer = s.coin_spawn_timer := by
  unfold paddlePhase
  split_ifs <;>
    simp [scoreLeftHit_keep, scoreRightHit_keep]

theorem missPhase_keep (env : Env) (s : GameState) :
    (missPhase env s).1.leftPaddleY = s.leftPaddleY ∧
    (missPhase env s).1.rightPaddleY = s.rightPaddleY ∧
    (missPhase env s).1.coins = s.coins ∧
    (missPhase env s).1.coin_spawn_timer = s.coin_spawn_timer := by
  unfold missPhase
  split_ifs <;> simp [resetBall]

theorem step_paddles (env : Env) (s : GameState) :
    (step env s).leftPaddleY = movePaddle env.keyW env.keyS s.leftPaddleY ∧
    (step env s).rightPaddleY = movePaddle env.keyUp env.keyDown s.rightPaddleY := by
  unfold step
  simp only [stepE]
  rw [(coinPhaseE_keep _ _).2.2.2.2.2.2.1, (coinPhaseE_keep _ _).2.2.2.2.2.2.2.1,
      (spawnPhase_keep _ _).2.2.2.2.2.2.1, (spawnPhase_keep _ _).2.2.2.2.2.2.2.1,
      (boostPhase_keep _ _).2.2.2.2.1, (boostPhase_keep _ _).2.2.2.2.2.1,
      (missPhase_keep _ _).1, (missPhase_keep _ _).2.1,
      (paddlePhase_keep _).2.2.2.2.1, (paddlePhase_keep _).2.2.2.2.2.1,
      (frontPhases_keep _ _).2.2.2.2.1, (frontPhases_keep _ _).2.2.2.2.2.1]
  exact ⟨rfl, rfl⟩

theorem movePaddle_bounds (up down : Bool) (y : ℤ) :
    0 ≤ movePaddle up down y ∧ movePaddle up down y ≤ WINDOW_HEIGHT - PADDLE_HEIGHT := by
  simp only [movePaddle, WINDOW_HEIGHT, PADDLE_HEIGHT, PADDLE_SPEED]
  split_ifs <;> omega

/-- C5: for every frame and both paddles, after the paddle-update
(clamping) step the paddle's y coordinate lies within
[0, WINDOW_HEIGHT - PADDLE_HEIGHT], whatever movement keys are held; and
since no later phase of the frame moves a paddle, the same bounds hold
at the end of every frame. -/
theorem c5_paddle_bounds :
    (∀ (up down : Bool) (y : ℤ),
        0 ≤ movePaddle up down y ∧ movePaddle up down y ≤ WINDOW_HEIGHT - PADDLE_HEIGHT) ∧
    (∀ (env : Env) (s : GameState),
        0 ≤ (step env s).leftPaddleY ∧
        (step env s).leftPaddleY ≤ WINDOW_HEIGHT - PADDLE_HEIGHT ∧
        0 ≤ (step env s).rightPaddleY ∧
        (step env s).rightPaddleY ≤ WINDOW_HEIGHT - PADDLE_HEIGHT) := by
  refine ⟨movePaddle_bounds, ?_⟩
  intro env s
  obtain ⟨hl, hr⟩ := step_paddles env s
  rw [hl, hr]
  obtain ⟨a1, a2⟩ := movePaddle_bounds env.keyW env.keyS s.leftPaddleY
  obtain ⟨b1, b2⟩ := movePaddle_bounds env.keyUp env.keyDown s.rightPaddleY
  exact ⟨a1, a2, b1, b2⟩

theorem cast_window_height : ((WINDOW_HEIGHT : ℤ) : ℚ) = 600 := by norm_num [WINDOW_HEIGHT]

theorem cast_window_width : ((WINDOW_WIDTH : ℤ) : ℚ) = 800 := by norm_num [WINDOW_WIDTH]

/-- C6: if the integrated ball position crosses the bottom edge, the
wall step clamps y to WINDOW_HEIGHT - BALL_RADIUS and forces the
vertical direction non-positive (strictly negative whenever the ball has
any vertical motion), marking the frame reflected; symmetrically at the
top edge (y clamped to BALL_RADIUS, direction forced non-negative).  The
two crossings are mutually exclusive, the bottom one tested first. -/
theorem c6_wall_reflection (env : Env) (t : GameState) :
    ((integratePhase (paddleMovePhase env t)).ball_y + (BALL_RADIUS : ℚ) >
          (WINDOW_HEIGHT : ℚ) →
        (wallPhase (integratePhase (paddleMovePhase env t))).1.ball_y =
            ((WINDOW_HEIGHT - BALL_RADIUS : ℤ) : ℚ) ∧
        (wallPhase (integratePhase (paddleMovePhase env t))).1.ball_dy =
            -|(integratePhase (paddleMovePhase env t)).ball_dy| ∧
        (wallPhase (integratePhase (paddleMovePhase env t))).1.ball_dy ≤ 0 ∧
        ((integratePhase (paddleMovePhase env t)).ball_dy ≠ 0 →
            (wallPhase (integratePhase (paddleMovePhase env t))).1.ball_dy < 0) ∧
        (wallPhase (integratePhase (paddleMovePhase env t))).2 = true ∧
        (stepE env t).2.reflected = true) ∧
    ((integratePhase (paddleMovePhase env t)).ball_y - (BALL_RADIUS : ℚ) < 0 →
        (wallPhase (integratePhase (paddleMovePhase env t))).1.ball_y = (BALL_RADIUS : ℚ) ∧
        (wallPhase (integratePhase (paddleMovePhase env t))).1.ball_dy =
            |(integratePhase (paddleMovePhase env t)).ball_dy| ∧
        0 ≤ (wallPhase (integratePhase (paddleMovePhase env t))).1.ball_dy ∧
        ((integratePhase (paddleMovePhase env t)).ball_dy ≠ 0 →
            0 < (wallPhase (integratePhase (paddleMovePhase env t))).1.ball_dy) ∧
        (wallPhase (integratePhase (paddleMovePhase env t))).2 = true ∧
        (stepE env t).2.reflected = true) := by
  set s2 := integratePhase (paddleMovePhase env t) with hs2
  constructor
  · intro hb
    rw [wallPhase_bottom s2 hb]
    refine ⟨rfl, rfl, ?_, ?_, rfl, ?_⟩
    · show -|s2.ball_dy| ≤ 0
      simp [abs_nonneg]
    · intro hdy
      show -|s2.ball_dy| < 0
      simp [abs_pos.mpr hdy]
    · simp only [stepE, ← hs2, wallPhase_bottom s2 hb]
      simp
  · intro ht
    have hnb : ¬ s2.ball_y + (BALL_RADIUS : ℚ) > (WINDOW_HEIGHT : ℚ) := by
      rw [cast_ball_radius] at ht ⊢
      rw [cast_window_height]
      nlinarith
    rw [wallPhase_top s2 hnb ht]
    refine ⟨rfl, rfl, ?_, ?_, rfl, ?_⟩
    · show (0 : ℚ) ≤ |s2.ball_dy|
      exact abs_nonneg _
    · intro hdy
      show (0 : ℚ) < |s2.ball_dy|
      exact abs_pos.mpr hdy
    · simp only [stepE, ← hs2, wallPhase_top s2 hnb ht]
      simp

theorem missPhase_speed (env : Env) (s : GameState) :
    ((missPhase env s).1.current_ball_speed = INITIAL_BALL_SPEED ∧
     (missPhase env s).1.ball_boost_timer = 0) ∨
    ((missPhase env s).1.current_ball_speed = s.current_ball_speed ∧
     (missPhase env s).1.ball_boost_timer = s.ball_boost_timer) := by
  unfold missPhase
  split_ifs <;> simp [resetBall]

theorem step_speed_formula (env : Env) (s : GameState) :
    (step env s).current_ball_speed =
      (boostPhase ((stepE env s).2.reflected)
        (missPhase env
          (paddlePhase (wallPhase (integratePhase (paddleMovePhase env s))).1).1).1).current_ball_speed ∧
    (step env s).ball_boost_timer =
      (boostPhase ((stepE env s).2.reflected)
        (missPhase env
          (paddlePhase (wallPhase (integratePhase (paddleMovePhase env s))).1).1).1).ball_boost_timer := by
  unfold step
  simp only [stepE]
  rw [(coinPhaseE_keep _ _).2.2.2.2.1, (coinPhaseE_keep _ _).2.2.2.2.2.1,
      (spawnPhase_keep _ _).2.2.2.2.1, (spawnPhase_keep _ _).2.2.2.2.2.1]
  exact ⟨rfl, rfl⟩

/-- On any frame whose `reflected_this_frame` flag ends true, the frame
ends with the boosted speed and the timer at the full duration less the
same-frame decrement. -/
theorem stepE_reflected_speed (env : Env) (s : GameState)
    (h : (stepE env s).2.reflected = true) :
    (step env s).current_ball_speed = INITIAL_BALL_SPEED * BALL_BOOST_FACTOR ∧
    (step env s).ball_boost_timer = BALL_BOOST_DURATION_FRAMES - 1 := by
  obtain ⟨hs, ht⟩ := step_speed_formula env s
  rw [hs, ht, h, boostPhase_true]
  exact ⟨rfl, rfl⟩

theorem step_speed_cases (env : Env) (s : GameState) :
    (step env s).current_ball_speed = INITIAL_BALL_SPEED ∨
    (step env s).current_ball_speed = INITIAL_BALL_SPEED * BALL_BOOST_FACTOR ∨
    (step env s).current_ball_speed = s.current_ball_speed := by
  obtain ⟨hs, ht⟩ := step_speed_formula env s
  rw [hs]
  set M := (missPhase env
      (paddlePhase (wallPhase (integratePhase (paddleMovePhase env s))).1).1).1 with hM
  have hMs : M.current_ball_speed = INITIAL_BALL_SPEED ∨
      M.current_ball_speed = s.current_ball_speed := by
    rcases missPhase_speed env
        (paddlePhase (wallPhase (integratePhase (paddleMovePhase env s))).1).1 with hc | hc
    · exact Or.inl hc.1
    · refine Or.inr ?_
      rw [hc.1, (paddlePhase_keep _).2.2.1, (frontPhases_keep _ _).2.2.1]
  cases hr : (stepE env s).2.reflected
  · by_cases hz : M.ball_boost_timer > 0
    · by_cases hone : M.ball_boost_timer = 1
      · rw [boostPhase_false_one M hone]
        exact Or.inl rfl
      · rw [boostPhase_false_many M (by omega)]
        rcases hMs with hc | hc
        · exact Or.inl hc
        · exact Or.inr (Or.inr hc)
    · rw [boostPhase_false_zero M hz]
      rcases hMs with hc | hc
      · exact Or.inl hc
      · exact Or.inr (Or.inr hc)
  · rw [boostPhase_true]
    exact Or.inr (Or.inl rfl)

theorem launch_speed (dir : ℚ × ℚ) (mx my : ℤ) (s : GameState) :
    (launch dir mx my s).current_ball_speed = INITIAL_BALL_SPEED ∨
    (launch dir mx my s).current_ball_speed = s.current_ball_speed := by
  unfold launch
  split_ifs <;> simp

/-- C10: in every reachable state the ball speed is either the base
speed or the boosted speed `base * factor` — reflections during an
active boost never compound it — and it is positive and bounded by the
boosted value. -/
theorem c10_speed_invariant (s : GameState) (h : Reachable s) :
    (s.current_ball_speed = INITIAL_BALL_SPEED ∨
     s.current_ball_speed = INITIAL_BALL_SPEED * BALL_BOOST_FACTOR) ∧
    0 < s.current_ball_speed ∧
    s.current_ball_speed ≤ INITIAL_BALL_SPEED * BALL_BOOST_FACTOR := by
  have hbound : ∀ t : GameState,
      (t.current_ball_speed = INITIAL_BALL_SPEED ∨
       t.current_ball_speed = INITIAL_BALL_SPEED * BALL_BOOST_FACTOR) →
      0 < t.current_ball_speed ∧
      t.current_ball_speed ≤ INITIAL_BALL_SPEED * BALL_BOOST_FACTOR := by
    intro t ht
    rcases ht with hc | hc <;>
      rw [hc] <;> norm_num [INITIAL_BALL_SPEED, BALL_BOOST_FACTOR]
  have hmain : s.current_ball_speed = INITIAL_BALL_SPEED ∨
      s.current_ball_speed = INITIAL_BALL_SPEED * BALL_BOOST_FACTOR := by
    induction h with
    | init => exact Or.inl rfl
    | frame env t ht ih =>
        rcases step_speed_cases env t with hc | hc | hc
        · exact Or.inl hc
        · exact Or.inr hc
        · rw [hc]; exact ih
    | click dir mx my t ht ih =>
        rcases launch_speed dir mx my t with hc | hc
        · exact Or.inl hc
        · rw [hc]; exact ih
  exact ⟨hmain, hbound s hmain⟩

/-- Witness for C10 at the initial state. -/
theorem c10_speed_invariant_witness :
    (initialState.current_ball_speed = INITIAL_BALL_SPEED ∨
     initialState.current_ball_speed = INITIAL_BALL_SPEED * BALL_BOOST_FACTOR) ∧
    0 < initialState.current_ball_speed ∧
    initialState.current_ball_speed ≤ INITIAL_BALL_SPEED * BALL_BOOST_FACTOR :=
  c10_speed_invariant initialState Reachable.init

theorem stepE_reflected_false_hits (env : Env) (s : GameState)
    (h : (stepE env s).2.reflected = false) :
    (stepE env s).2.leftHit = false ∧ (stepE env s).2.rightHit = false := by
  simp only [stepE] at h ⊢
  rcases Bool.or_eq_false_iff.mp h with ⟨h1, h2⟩
  rcases Bool.or_eq_false_iff.mp h1 with ⟨_, h3⟩
  exact ⟨h3, h2⟩

theorem step_noReflect_speed (env : Env) (s : GameState)
    (h : (stepE env s).2.reflected = false) :
    ((step env s).ball_boost_timer = 0 ∧
      (step env s).current_ball_speed = INITIAL_BALL_SPEED) ∨
    ((step env s).ball_boost_timer = s.ball_boost_timer ∧
      (step env s).current_ball_speed = s.current_ball_speed ∧
      ¬ s.ball_boost_timer > 0) ∨
    ((step env s).ball_boost_timer = s.ball_boost_timer - 1 ∧
      (step env s).current_ball_speed = s.current_ball_speed ∧
      s.ball_boost_timer > 1) := by
  obtain ⟨hs, ht⟩ := step_speed_formula env s
  rw [h] at hs ht
  set P := (paddlePhase (wallPhase (integratePhase (paddleMovePhase env s))).1).1 with hP
  have hPt : P.ball_boost_timer = s.ball_boost_timer := by
    rw [hP, (paddlePhase_keep _).2.2.2.1, (frontPhases_keep _ _).2.2.2.1]
  have hPs : P.current_ball_speed = s.current_ball_speed := by
    rw [hP, (paddlePhase_keep _).2.2.1, (frontPhases_keep _ _).2.2.1]
  rcases missPhase_speed env P with hm | hm
  · left
    rw [hs, ht, boostPhase_false_zero _ (by rw [hm.2]; omega)]
    exact ⟨hm.2, hm.1⟩
  · have hMt : (missPhase env P).1.ball_boost_timer = s.ball_boost_timer := by
      rw [hm.2, hPt]
    have hMs : (missPhase env P).1.current_ball_speed = s.current_ball_speed := by
      rw [hm.1, hPs]
    by_cases h0 : s.ball_boost_timer > 0
    · by_cases h1 : s.ball_boost_timer = 1
      · left
        rw [hs, ht, boostPhase_false_one _ (by rw [hMt]; exact h1)]
        refine ⟨rfl, rfl⟩
      · right; right
        rw [hs, ht, boostPhase_false_many _ (by rw [hMt]; omega)]
        refine ⟨?_, hMs, by omega⟩
        show (missPhase env P).1.ball_boost_timer - 1 = s.ball_boost_timer - 1
        rw [hMt]
    · right; left
      rw [hs, ht, boostPhase_false_zero _ (by rw [hMt]; exact h0)]
      exact ⟨hMt, hMs, h0⟩

theorem noReflectRun_decay (n : ℕ) (s u : GameState) (h : NoReflectRun n s u) :
    ((s.ball_boost_timer = 0 ∧ s.current_ball_speed = INITIAL_BALL_SPEED) →
      u.ball_boost_timer = 0 ∧ u.current_ball_speed = INITIAL_BALL_SPEED) ∧
    (∀ B : ℤ, 0 < s.ball_boost_timer → s.ball_boost_timer ≤ B →
      s.current_ball_speed = INITIAL_BALL_SPEED * BALL_BOOST_FACTOR →
      ((u.ball_boost_timer = 0 ∧ u.current_ball_speed = INITIAL_BALL_SPEED) ∨
       (0 < u.ball_boost_timer ∧ u.ball_boost_timer ≤ B - (n : ℤ) ∧
        u.current_ball_speed = INITIAL_BALL_SPEED * BALL_BOOST_FACTOR))) := by
  induction h with
  | zero s =>
      refine ⟨fun hst => hst, ?_⟩
      intro B h1 h2 h3
      right
      refine ⟨h1, ?_, h3⟩
      simpa using h2
  | succ env n s u hrefl hrun ih =>
      constructor
      · intro hst
        rcases step_noReflect_speed env s hrefl with hc | hc | hc
        · exact ih.1 ⟨hc.1, hc.2⟩
        · refine ih.1 ?_
          rw [hc.1, hc.2.1, hst.1, hst.2]
          exact ⟨rfl, rfl⟩
        · omega
      · intro B h1 h2 h3
        rcases step_noReflect_speed env s hrefl with hc | hc | hc
        · exact Or.inl (ih.1 ⟨hc.1, hc.2⟩)
        · omega
        · have hih := ih.2 (B - 1) (by omega) (by omega) (by rw [hc.2.1]; exact h3)
          rcases hih with hu | hu
          · exact Or.inl hu
          · right
            refine ⟨hu.1, ?_, hu.2.2⟩
            push_cast
            omega

/-- C3: a frame with any reflection (wall or paddle) ends with speed
`base * factor` and the boost timer freshly restarted to the full
duration (less the decrement the same frame's boost block already
performed); if no reflection occurs in the following frames the timer
decrements by 1 per frame, speed reverting the instant it reaches 0, and
exactly `BALL_BOOST_DURATION_FRAMES` (30) frames after the reflection
frame the speed equals the base value again with the timer at 0. -/
theorem c3_boost :
    (∀ (env : Env) (s : GameState), (stepE env s).2.reflected = true →
        (step env s).current_ball_speed = INITIAL_BALL_SPEED * BALL_BOOST_FACTOR ∧
        (step env s).ball_boost_timer = BALL_BOOST_DURATION_FRAMES - 1 ∧
        (∀ u : GameState, NoReflectRun 30 (step env s) u →
            u.current_ball_speed = INITIAL_BALL_SPEED ∧ u.ball_boost_timer = 0)) ∧
    (∀ (env : Env) (s : GameState),
        (stepE env s).2.reflected = false → (stepE env s).2.missLeft = false →
        (stepE env s).2.missRight = false → 0 < s.ball_boost_timer →
        (step env s).ball_boost_timer = s.ball_boost_timer - 1 ∧
        (s.ball_boost_timer - 1 = 0 →
            (step env s).current_ball_speed = INITIAL_BALL_SPEED) ∧
        (s.ball_boost_timer - 1 ≠ 0 →
            (step env s).current_ball_speed = s.current_ball_speed)) := by
  constructor
  · intro env s h
    obtain ⟨hsp, hti⟩ := stepE_reflected_speed env s h
    refine ⟨hsp, hti, ?_⟩
    intro u hrun
    have hdec := (noReflectRun_decay 30 (step env s) u hrun).2
        (BALL_BOOST_DURATION_FRAMES - 1)
        (by rw [hti]; norm_num [BALL_BOOST_DURATION_FRAMES])
        (by rw [hti]) hsp
    rcases hdec with hu | hu
    · exact ⟨hu.2, hu.1⟩
    · exfalso
      have : BALL_BOOST_DURATION_FRAMES - 1 - (30 : ℤ) < 0 := by
        norm_num [BALL_BOOST_DURATION_FRAMES]
      have h30 : ((30 : ℕ) : ℤ) = (30 : ℤ) := by norm_num
      rw [h30] at hu
      omega
  · intro env s h hml hmr h0
    obtain ⟨hlh, hrh⟩ := stepE_reflected_false_hits env s h
    have hq := stepE_quiet env s hlh hrh hml hmr
    have hq2 := hq.2.2.2.2.2.2.2 h
    by_cases h1 : s.ball_boost_timer = 1
    · obtain ⟨q1, q2⟩ := hq2.2.1 h1
      refine ⟨?_, ?_, ?_⟩
      · show (stepE env s).1.ball_boost_timer = s.ball_boost_timer - 1
        rw [q2]
        omega
      · intro _
        exact q1
      · intro hne
        omega
    · have hmany : s.ball_boost_timer > 1 := by omega
      obtain ⟨q1, q2⟩ := hq2.2.2 hmany
      refine ⟨q2, ?_, ?_⟩
      · intro hz
        omega
      · intro _
        exact q1

/-- C1 (amended): a miss frame recenters the ball, installs the freshly
sampled serve direction, clears the hit bookkeeping, and awards one
point to the opposite side (coin collections the same frame add their
own points on top); the speed reset and boost-timer clear survive to the
end of the frame only when no wall reflection occurred in it — a
same-frame wall reflection re-triggers the boost block after the reset,
so the frame then ends at the boosted speed with the timer at
`BALL_BOOST_DURATION_FRAMES - 1`. -/
theorem c1_miss_reset :
    (∀ (env : Env) (s : GameState), (stepE env s).2.missLeft = true →
        (stepE env s).1.right_score = s.right_score + 1 + (stepE env s).2.coinRightPts ∧
        (stepE env s).1.left_score = s.left_score + (stepE env s).2.coinLeftPts ∧
        (stepE env s).1.ball_x = (WINDOW_WIDTH : ℚ) / 2 ∧
        (stepE env s).1.ball_y = (WINDOW_HEIGHT : ℚ) / 2 ∧
        (stepE env s).1.ball_dx = env.serveDX ∧
        (stepE env s).1.ball_dy = env.serveDY ∧
        (stepE env s).1.last_ball_hit = LastHit.None ∧
        (stepE env s).1.left_consecutive_hits = 0 ∧
        (stepE env s).1.right_consecutive_hits = 0 ∧
        ((stepE env s).2.reflected = false →
            (stepE env s).1.current_ball_speed = INITIAL_BALL_SPEED ∧
            (stepE env s).1.ball_boost_timer = 0) ∧
        ((stepE env s).2.reflected = true →
            (stepE env s).1.current_ball_speed = INITIAL_BALL_SPEED * BALL_BOOST_FACTOR ∧
            (stepE env s).1.ball_boost_timer = BALL_BOOST_DURATION_FRAMES - 1)) ∧
    (∀ (env : Env) (s : GameState), (stepE env s).2.missRight = true →
        (stepE env s).1.left_score = s.left_score + 1 + (stepE env s).2.coinLeftPts ∧
        (stepE env s).1.right_score = s.right_score + (stepE env s).2.coinRightPts ∧
        (stepE env s).1.ball_x = (WINDOW_WIDTH : ℚ) / 2 ∧
        (stepE env s).1.ball_y = (WINDOW_HEIGHT : ℚ) / 2 ∧
        (stepE env s).1.ball_dx = env.serveDX ∧
        (stepE env s).1.ball_dy = env.serveDY ∧
        (stepE env s).1.last_ball_hit = LastHit.None ∧
        (stepE env s).1.left_consecutive_hits = 0 ∧
        (stepE env s).1.right_consecutive_hits = 0 ∧
        ((stepE env s).2.reflected = false →
            (stepE env s).1.current_ball_speed = INITIAL_BALL_SPEED ∧
            (stepE env s).1.ball_boost_timer = 0) ∧
        ((stepE env s).2.reflected = true →
            (stepE env s).1.current_ball_speed = INITIAL_BALL_SPEED * BALL_BOOST_FACTOR ∧
            (stepE env s).1.ball_boost_timer = BALL_BOOST_DURATION_FRAMES - 1)) := by
  constructor
  · intro env s h
    obtain ⟨_, _, e3, e4, e5, e6, e7, e8, e9, e10, e11, e12, e13⟩ := stepE_missLeft env s h
    exact ⟨e10, e11, e3, e4, e5, e6, e7, e8, e9, fun hr => e13 hr, fun hr => e12 hr⟩
  · intro env s h
    obtain ⟨_, _, e3, e4, e5, e6, e7, e8, e9, e10, e11, e12, e13⟩ := stepE_missRight env s h
    exact ⟨e10, e11, e3, e4, e5, e6, e7, e8, e9, fun hr => e13 hr, fun hr => e12 hr⟩

/-- C1 counterexample: from `c1cexState` the frame both bounces off the
top wall and crosses the left edge; it is a miss frame, yet it ends with
the boosted speed and a running boost timer — not the base speed and a
cleared timer the claim asserts for such frames. -/
theorem c1_counterexample :
    (stepE (idleEnv 0 0) c1cexState).2.missLeft = true ∧
    (stepE (idleEnv 0 0) c1cexState).2.reflected = true ∧
    ¬ ((stepE (idleEnv 0 0) c1cexState).1.current_ball_speed = INITIAL_BALL_SPEED ∧
       (stepE (idleEnv 0 0) c1cexState).1.ball_boost_timer = 0) := by
  norm_num [stepE, paddleMovePhase, integratePhase, wallPhase, paddlePhase, leftHitTest,
    rightHitTest, checkCircleRectCollision, leftPaddleRect, rightPaddleRect, missPhase,
    resetBall, boostPhase, boostApply, boostTick, spawnPhase, coinPhaseE, movePaddle,
    scoreLeftHit, scoreRightHit, c1cexState, idleEnv, WINDOW_WIDTH, WINDOW_HEIGHT,
    BALL_RADIUS, BALL_DIAMETER, PADDLE_WIDTH, PADDLE_HEIGHT, PADDLE_SPEED,
    INITIAL_BALL_SPEED, BALL_BOOST_FACTOR, BALL_BOOST_DURATION_FRAMES,
    COIN_APPEAR_INTERVAL_FRAMES]

/-- Witness for C1 at a concrete left-edge miss frame. -/
theorem c1_miss_reset_witness :
    (stepE (idleEnv 0 0) c1wState).2.missLeft = true ∧
    (stepE (idleEnv 0 0) c1wState).1.ball_x = (WINDOW_WIDTH : ℚ) / 2 ∧
    (stepE (idleEnv 0 0) c1wState).1.last_ball_hit = LastHit.None ∧
    (stepE (idleEnv 0 0) c1wState).1.right_score =
      c1wState.right_score + 1 + (stepE (idleEnv 0 0) c1wState).2.coinRightPts := by
  have hm : (stepE (idleEnv 0 0) c1wState).2.missLeft = true := by
    norm_num [stepE, paddleMovePhase, integratePhase, wallPhase, paddlePhase, leftHitTest,
      rightHitTest, checkCircleRectCollision, leftPaddleRect, rightPaddleRect, missPhase,
      resetBall, boostPhase, boostApply, boostTick, spawnPhase, coinPhaseE, movePaddle,
      scoreLeftHit, scoreRightHit, c1wState, idleEnv, WINDOW_WIDTH, WINDOW_HEIGHT,
      BALL_RADIUS, BALL_DIAMETER, PADDLE_WIDTH, PADDLE_HEIGHT, PADDLE_SPEED,
      INITIAL_BALL_SPEED, BALL_BOOST_FACTOR, BALL_BOOST_DURATION_FRAMES,
      COIN_APPEAR_INTERVAL_FRAMES]
  have h := c1_miss_reset.1 (idleEnv 0 0) c1wState hm
  exact ⟨hm, h.2.2.1, h.2.2.2.2.2.2.1, h.1⟩

theorem quietLeftRun_keep (s u : GameState) (h : QuietLeftRun s u) :
    u.last_ball_hit = s.last_ball_hit ∧
    u.left_consecutive_hits = s.left_consecutive_hits ∧
    u.left_score = s.left_score := by
  induction h with
  | refl s => exact ⟨rfl, rfl, rfl⟩
  | cons env s u hL hR hML hMR hc hrun ih =>
      have hq := stepE_quiet env s hL hR hML hMR
      refine ⟨?_, ?_, ?_⟩
      · rw [ih.1]; exact hq.1
      · rw [ih.2.1]; exact hq.2.1
      · rw [ih.2.2]
        show (stepE env s).1.left_score = s.left_score
        rw [hq.2.2.2.1, hc, add_zero]

theorem quietRightRun_keep (s u : GameState) (h : QuietRightRun s u) :
    u.last_ball_hit = s.last_ball_hit ∧
    u.right_consecutive_hits = s.right_consecutive_hits ∧
    u.right_score = s.right_score := by
  induction h with
  | refl s => exact ⟨rfl, rfl, rfl⟩
  | cons env s u hL hR hML hMR hc hrun ih =>
      have hq := stepE_quiet env s hL hR hML hMR
      refine ⟨?_, ?_, ?_⟩
      · rw [ih.1]; exact hq.1
      · rw [ih.2.1]; exact hq.2.2.1
      · rw [ih.2.2]
        show (stepE env s).1.right_score = s.right_score
        rw [hq.2.2.2.2.1, hc, add_zero]

/-- C2: the consecutive-hit rule.  A left-paddle hit on a fresh streak
(`last_ball_hit` not the left paddle) changes no score (absent
same-frame coin points), sets the left counter to 1, clears the right
counter and records the left paddle; a left-paddle hit with the streak
open at 1 awards exactly one point to the left and returns the counter
to 0; and any run of frames with no paddle hit, no miss, and no left
coin points preserves `last_ball_hit`, the left counter and the left
score — so across two such hits bridged by such a run the left score
rises by exactly 1.  Mirrored for the right paddle. -/
theorem c2_consecutive_hits :
    (∀ (env : Env) (s : GameState),
        (stepE env s).2.leftHit = true → ¬ s.last_ball_hit = LastHit.LeftPaddle →
        (stepE env s).2.coinLeftPts = 0 → (stepE env s).2.coinRightPts = 0 →
        (stepE env s).1.left_score = s.left_score ∧
        (stepE env s).1.right_score = s.right_score ∧
        (stepE env s).1.left_consecutive_hits = 1 ∧
        (stepE env s).1.right_consecutive_hits = 0 ∧
        (stepE env s).1.last_ball_hit = LastHit.LeftPaddle) ∧
    (∀ (env : Env) (s : GameState),
        (stepE env s).2.leftHit = true → s.last_ball_hit = LastHit.LeftPaddle →
        s.left_consecutive_hits = 1 → (stepE env s).2.coinLeftPts = 0 →
        (stepE env s).1.left_score = s.left_score + 1 ∧
        (stepE env s).1.left_consecutive_hits = 0) ∧
    (∀ s u : GameState, QuietLeftRun s u →
        u.last_ball_hit = s.last_ball_hit ∧
        u.left_consecutive_hits = s.left_consecutive_hits ∧
        u.left_score = s.left_score) ∧
    (∀ (env : Env) (s : GameState),
        (stepE env s).2.rightHit = true → ¬ s.last_ball_hit = LastHit.RightPaddle →
        (stepE env s).2.coinLeftPts = 0 → (stepE env s).2.coinRightPts = 0 →
        (stepE env s).1.right_score = s.right_score ∧
        (stepE env s).1.left_score = s.left_score ∧
        (stepE env s).1.right_consecutive_hits = 1 ∧
        (stepE env s).1.left_consecutive_hits = 0 ∧
        (stepE env s).1.last_ball_hit = LastHit.RightPaddle) ∧
    (∀ (env : Env) (s : GameState),
        (stepE env s).2.rightHit = true → s.last_ball_hit = LastHit.RightPaddle →
        s.right_consecutive_hits = 1 → (stepE env s).2.coinRightPts = 0 →
        (stepE env s).1.right_score = s.right_score + 1 ∧
        (stepE env s).1.right_consecutive_hits = 0) ∧
    (∀ s u : GameState, QuietRightRun s u →
        u.last_ball_hit = s.last_ball_hit ∧
        u.right_consecutive_hits = s.right_consecutive_hits ∧
        u.right_score = s.right_score) := by
  refine ⟨?_, ?_, quietLeftRun_keep, ?_, ?_, quietRightRun_keep⟩
  · intro env s h hfresh hcl hcr
    obtain ⟨_, _, e3, e4, _, e6⟩ := stepE_leftHit env s h
    obtain ⟨f1, f2, f3⟩ := e6 hfresh
    refine ⟨?_, ?_, f2, f3, e3⟩
    · rw [f1, hcl, add_zero]
    · rw [e4, hcr, add_zero]
  · intro env s h hlast hone hcl
    obtain ⟨_, _, _, _, e5, _⟩ := stepE_leftHit env s h
    obtain ⟨f1, _, _⟩ := e5 hlast
    obtain ⟨g1, g2⟩ := f1 (by omega)
    refine ⟨?_, g2⟩
    · rw [g1, hcl, add_zero]
  · intro env s h hfresh hcl hcr
    obtain ⟨_, _, e3, e4, _, e6⟩ := stepE_rightHit env s h
    obtain ⟨f1, f2, f3⟩ := e6 hfresh
    refine ⟨?_, ?_, f2, f3, e3⟩
    · rw [f1, hcr, add_zero]
    · rw [e4, hcl, add_zero]
  · intro env s h hlast hone hcr
    obtain ⟨_, _, _, _, e5, _⟩ := stepE_rightHit env s h
    obtain ⟨f1, _, _⟩ := e5 hlast
    obtain ⟨g1, g2⟩ := f1 (by omega)
    refine ⟨?_, g2⟩
    · rw [g1, hcr, add_zero]

/-- Witness for C2 at concrete paddle-hit frames (fresh streak and
streak-completing hit, both sides) and the empty quiet run. -/
theorem c2_consecutive_hits_witness :
    ((stepE (idleEnv 0 0) c2LeftState).2.leftHit = true ∧
     (stepE (idleEnv 0 0) c2LeftState).1.left_consecutive_hits = 1 ∧
     (stepE (idleEnv 0 0) c2LeftState).1.left_score = c2LeftState.left_score) ∧
    ((stepE (idleEnv 0 0) c2LeftState2).2.leftHit = true ∧
     (stepE (idleEnv 0 0) c2LeftState2).1.left_score = c2LeftState2.left_score + 1 ∧
     (stepE (idleEnv 0 0) c2LeftState2).1.left_consecutive_hits = 0) ∧
    (initialState.last_ball_hit = initialState.last_ball_hit) ∧
    ((stepE (idleEnv 0 0) c2RightState).2.rightHit = true ∧
     (stepE (idleEnv 0 0) c2RightState).1.right_consecutive_hits = 1 ∧
     (stepE (idleEnv 0 0) c2RightState).1.right_score = c2RightState.right_score) ∧
    ((stepE (idleEnv 0 0) c2RightState2).2.rightHit = true ∧
     (stepE (idleEnv 0 0) c2RightState2).1.right_score = c2RightState2.right_score + 1 ∧
     (stepE (idleEnv 0 0) c2RightState2).1.right_consecutive_hits = 0) := by
  have hl1 : (stepE (idleEnv 0 0) c2LeftState).2.leftHit = true := by
    norm_num [stepE, paddleMovePhase, integratePhase, wallPhase, paddlePhase, leftHitTest,
      rightHitTest, checkCircleRectCollision, leftPaddleRect, rightPaddleRect, movePaddle,
      c2LeftState, idleEnv, WINDOW_WIDTH, WINDOW_HEIGHT, BALL_RADIUS, BALL_DIAMETER,
      PADDLE_WIDTH, PADDLE_HEIGHT, PADDLE_SPEED, INITIAL_BALL_SPEED]
  have hcl1 : (stepE (idleEnv 0 0) c2LeftState).2.coinLeftPts = 0 := by
    norm_num [stepE, paddleMovePhase, integratePhase, wallPhase, paddlePhase, leftHitTest,
      rightHitTest, checkCircleRectCollision, leftPaddleRect, rightPaddleRect, missPhase,
      resetBall, boostPhase, boostApply, boostTick, spawnPhase, coinPhaseE, movePaddle,
      scoreLeftHit, scoreRightHit, c2LeftState, idleEnv, WINDOW_WIDTH, WINDOW_HEIGHT,
      BALL_RADIUS, BALL_DIAMETER, PADDLE_WIDTH, PADDLE_HEIGHT, PADDLE_SPEED,
      INITIAL_BALL_SPEED, BALL_BOOST_FACTOR, BALL_BOOST_DURATION_FRAMES,
      COIN_APPEAR_INTERVAL_FRAMES]
  have hcr1 : (stepE (idleEnv 0 0) c2LeftState).2.coinRightPts = 0 := by
    norm_num [stepE, paddleMovePhase, integratePhase, wallPhase, paddlePhase, leftHitTest,
      rightHitTest, checkCircleRectCollision, leftPaddleRect, rightPaddleRect, missPhase,
      resetBall, boostPhase, boostApply, boostTick, spawnPhase, coinPhaseE, movePaddle,
      scoreLeftHit, scoreRightHit, c2LeftState, idleEnv, WINDOW_WIDTH, WINDOW_HEIGHT,
      BALL_RADIUS, BALL_DIAMETER, PADDLE_WIDTH, PADDLE_HEIGHT, PADDLE_SPEED,
      INITIAL_BALL_SPEED, BALL_BOOST_FACTOR, BALL_BOOST_DURATION_FRAMES,
      COIN_APPEAR_INTERVAL_FRAMES]
  have hl2 : (stepE (idleEnv 0 0) c2LeftState2).2.leftHit = true := by
    norm_num [stepE, paddleMovePhase, integratePhase, wallPhase, paddlePhase, leftHitTest,
      rightHitTest, checkCircleRectCollision, leftPaddleRect, rightPaddleRect, movePaddle,
      c2LeftState2, c2LeftState, idleEnv, WINDOW_WIDTH, WINDOW_HEIGHT, BALL_RADIUS,
      BALL_DIAMETER, PADDLE_WIDTH, PADDLE_HEIGHT, PADDLE_SPEED, INITIAL_BALL_SPEED]
  have hcl2 : (stepE (idleEnv 0 0) c2LeftState2).2.coinLeftPts = 0 := by
    norm_num [stepE, paddleMovePhase, integratePhase, wallPhase, paddlePhase, leftHitTest,
      rightHitTest, checkCircleRectCollision, leftPaddleRect, rightPaddleRect, missPhase,
      resetBall, boostPhase, boostApply, boostTick, spawnPhase, coinPhaseE, movePaddle,
      scoreLeftHit, scoreRightHit, c2LeftState2, c2LeftState, idleEnv, WINDOW_WIDTH,
      WINDOW_HEIGHT, BALL_RADIUS, BALL_DIAMETER, PADDLE_WIDTH, PADDLE_HEIGHT, PADDLE_SPEED,
      INITIAL_BALL_SPEED, BALL_BOOST_FACTOR, BALL_BOOST_DURATION_FRAMES,
      COIN_APPEAR_INTERVAL_FRAMES]
  have hr1 : (stepE (idleEnv 0 0) c2RightState).2.rightHit = true := by
    norm_num [stepE, paddleMovePhase, integratePhase, wallPhase, paddlePhase, leftHitTest,
      rightHitTest, checkCircleRectCollision, leftPaddleRect, rightPaddleRect, movePaddle,
      c2RightState, idleEnv, WINDOW_WIDTH, WINDOW_HEIGHT, BALL_RADIUS, BALL_DIAMETER,
      PADDLE_WIDTH, PADDLE_HEIGHT, PADDLE_SPEED, INITIAL_BALL_SPEED]
  have hclr1 : (stepE (idleEnv 0 0) c2RightState).2.coinLeftPts = 0 := by
    norm_num [stepE, paddleMovePhase, integratePhase, wallPhase, paddlePhase, leftHitTest,
      rightHitTest, checkCircleRectCollision, leftPaddleRect, rightPaddleRect, missPhase,
      resetBall, boostPhase, boostApply, boostTick, spawnPhase, coinPhaseE, movePaddle,
      scoreLeftHit, scoreRightHit, c2RightState, idleEnv, WINDOW_WIDTH, WINDOW_HEIGHT,
      BALL_RADIUS, BALL_DIAMETER, PADDLE_WIDTH, PADDLE_HEIGHT, PADDLE_SPEED,
      INITIAL_BALL_SPEED, BALL_BOOST_FACTOR, BALL_BOOST_DURATION_FRAMES,
      COIN_APPEAR_INTERVAL_FRAMES]
  have hcrr1 : (stepE (idleEnv 0 0) c2RightState).2.coinRightPts = 0 := by
    norm_num [stepE, paddleMovePhase, integratePhase, wallPhase, paddlePhase, leftHitTest,
      rightHitTest, checkCircleRectCollision, leftPaddleRect, rightPaddleRect, missPhase,
      resetBall, boostPhase, boostApply, boostTick, spawnPhase, coinPhaseE, movePaddle,
      scoreLeftHit, scoreRightHit, c2RightState, idleEnv, WINDOW_WIDTH, WINDOW_HEIGHT,
      BALL_RADIUS, BALL_DIAMETER, PADDLE_WIDTH, PADDLE_HEIGHT, PADDLE_SPEED,
      INITIAL_BALL_SPEED, BALL_BOOST_FACTOR, BALL_BOOST_DURATION_FRAMES,
      COIN_APPEAR_INTERVAL_FRAMES]
  have hr2 : (stepE (idleEnv 0 0) c2RightState2).2.rightHit = true := by
    norm_num [stepE, paddleMovePhase, integratePhase, wallPhase, paddlePhase, leftHitTest,
      rightHitTest, checkCircleRectCollision, leftPaddleRect, rightPaddleRect, movePaddle,
      c2RightState2, c2RightState, idleEnv, WINDOW_WIDTH, WINDOW_HEIGHT, BALL_RADIUS,
      BALL_DIAMETER, PADDLE_WIDTH, PADDLE_HEIGHT, PADDLE_SPEED, INITIAL_BALL_SPEED]
  have hcrr2 : (stepE (idleEnv 0 0) c2RightState2).2.coinRightPts = 0 := by
    norm_num [stepE, paddleMovePhase, integratePhase, wallPhase, paddlePhase, leftHitTest,
      rightHitTest, checkCircleRectCollision, leftPaddleRect, rightPaddleRect, missPhase,
      resetBall, boostPhase, boostApply, boostTick, spawnPhase, coinPhaseE, movePaddle,
      scoreLeftHit, scoreRightHit, c2RightState2, c2RightState, idleEnv, WINDOW_WIDTH,
      WINDOW_HEIGHT, BALL_RADIUS, BALL_DIAMETER, PADDLE_WIDTH, PADDLE_HEIGHT, PADDLE_SPEED,
      INITIAL_BALL_SPEED, BALL_BOOST_FACTOR, BALL_BOOST_DURATION_FRAMES,
      COIN_APPEAR_INTERVAL_FRAMES]
  have p1 := c2_consecutive_hits.1 (idleEnv 0 0) c2LeftState hl1
      (by decide) hcl1 hcr1
  have p2 := c2_consecutive_hits.2.1 (idleEnv 0 0) c2LeftState2 hl2
      (by decide) (by decide) hcl2
  have p4 := c2_consecutive_hits.2.2.2.1 (idleEnv 0 0) c2RightState hr1
      (by decide) hclr1 hcrr1
  have p5 := c2_consecutive_hits.2.2.2.2.1 (idleEnv 0 0) c2RightState2 hr2
      (by decide) (by decide) hcrr2
  have p3 := (c2_consecutive_hits.2.2.1 initialState initialState
      (QuietLeftRun.refl initialState)).1
  exact ⟨⟨hl1, p1.2.2.1, p1.1⟩, ⟨hl2, p2.1, p2.2⟩, p3, ⟨hr1, p4.2.2.1, p4.1⟩,
    ⟨hr2, p5.1, p5.2⟩⟩

/-- Witness for C3: a concrete wall-reflection frame and a concrete
mid-boost frame with no contact. -/
theorem c3_boost_witness :
    ((stepE (idleEnv 0 0) c3wState).2.reflected = true ∧
     (step (idleEnv 0 0) c3wState).current_ball_speed =
        INITIAL_BALL_SPEED * BALL_BOOST_FACTOR ∧
     (step (idleEnv 0 0) c3wState).ball_boost_timer = BALL_BOOST_DURATION_FRAMES - 1) ∧
    ((stepE (idleEnv 0 0) c3wState2).2.reflected = false ∧
     (step (idleEnv 0 0) c3wState2).ball_boost_timer = c3wState2.ball_boost_timer - 1) := by
  have h1 : (stepE (idleEnv 0 0) c3wState).2.reflected = true := by
    norm_num [stepE, paddleMovePhase, integratePhase, wallPhase, paddlePhase, leftHitTest,
      rightHitTest, checkCircleRectCollision, leftPaddleRect, rightPaddleRect, movePaddle,
      c3wState, idleEnv, WINDOW_WIDTH, WINDOW_HEIGHT, BALL_RADIUS, BALL_DIAMETER,
      PADDLE_WIDTH, PADDLE_HEIGHT, PADDLE_SPEED, INITIAL_BALL_SPEED]
  have h2 : (stepE (idleEnv 0 0) c3wState2).2.reflected = false := by
    norm_num [stepE, paddleMovePhase, integratePhase, wallPhase, paddlePhase, leftHitTest,
      rightHitTest, checkCircleRectCollision, leftPaddleRect, rightPaddleRect, movePaddle,
      c3wState2, idleEnv, WINDOW_WIDTH, WINDOW_HEIGHT, BALL_RADIUS, BALL_DIAMETER,
      PADDLE_WIDTH, PADDLE_HEIGHT, PADDLE_SPEED, INITIAL_BALL_SPEED]
  have h2ml : (stepE (idleEnv 0 0) c3wState2).2.missLeft = false := by
    norm_num [stepE, paddleMovePhase, integratePhase, wallPhase, paddlePhase, leftHitTest,
      rightHitTest, checkCircleRectCollision, leftPaddleRect, rightPaddleRect, missPhase,
      movePaddle, c3wState2, idleEnv, WINDOW_WIDTH, WINDOW_HEIGHT, BALL_RADIUS,
      BALL_DIAMETER, PADDLE_WIDTH, PADDLE_HEIGHT, PADDLE_SPEED, INITIAL_BALL_SPEED]
  have h2mr : (stepE (idleEnv 0 0) c3wState2).2.missRight = false := by
    norm_num [stepE, paddleMovePhase, integratePhase, wallPhase, paddlePhase, leftHitTest,
      rightHitTest, checkCircleRectCollision, leftPaddleRect, rightPaddleRect, missPhase,
      movePaddle, c3wState2, idleEnv, WINDOW_WIDTH, WINDOW_HEIGHT, BALL_RADIUS,
      BALL_DIAMETER, PADDLE_WIDTH, PADDLE_HEIGHT, PADDLE_SPEED, INITIAL_BALL_SPEED]
  have q1 := c3_boost.1 (idleEnv 0 0) c3wState h1
  have q2 := c3_boost.2 (idleEnv 0 0) c3wState2 h2 h2ml h2mr (by decide)
  exact ⟨⟨h1, q1.1, q1.2.1⟩, ⟨h2, q2.1⟩⟩

/-- Witness for C6: concrete bottom-wall and top-wall crossing frames. -/
theorem c6_wall_reflection_witness :
    ((integratePhase (paddleMovePhase (idleEnv 0 0) c6wState)).ball_y + (BALL_RADIUS : ℚ) >
        (WINDOW_HEIGHT : ℚ) ∧
     (wallPhase (integratePhase (paddleMovePhase (idleEnv 0 0) c6wState))).1.ball_y =
        ((WINDOW_HEIGHT - BALL_RADIUS : ℤ) : ℚ) ∧
     (wallPhase (integratePhase (paddleMovePhase (idleEnv 0 0) c6wState))).1.ball_dy ≤ 0 ∧
     (stepE (idleEnv 0 0) c6wState).2.reflected = true) ∧
    ((integratePhase (paddleMovePhase (idleEnv 0 0) c6wState2)).ball_y - (BALL_RADIUS : ℚ) <
        0 ∧
     (wallPhase (integratePhase (paddleMovePhase (idleEnv 0 0) c6wState2))).1.ball_y =
        (BALL_RADIUS : ℚ) ∧
     0 ≤ (wallPhase (integratePhase (paddleMovePhase (idleEnv 0 0) c6wState2))).1.ball_dy ∧
     (stepE (idleEnv 0 0) c6wState2).2.reflected = true) := by
  have hb : (integratePhase (paddleMovePhase (idleEnv 0 0) c6wState)).ball_y +
      (BALL_RADIUS : ℚ) > (WINDOW_HEIGHT : ℚ) := by
    norm_num [integratePhase, paddleMovePhase, movePaddle, c6wState, idleEnv,
      WINDOW_HEIGHT, BALL_RADIUS, BALL_DIAMETER]
  have ht : (integratePhase (paddleMovePhase (idleEnv 0 0) c6wState2)).ball_y -
      (BALL_RADIUS : ℚ) < 0 := by
    norm_num [integratePhase, paddleMovePhase, movePaddle, c6wState2, idleEnv,
      WINDOW_HEIGHT, BALL_RADIUS, BALL_DIAMETER]
  have h1 := (c6_wall_reflection (idleEnv 0 0) c6wState).1 hb
  have h2 := (c6_wall_reflection (idleEnv 0 0) c6wState2).2 ht
  exact ⟨⟨hb, h1.1, h1.2.2.1, h1.2.2.2.2.2⟩, ⟨ht, h2.1, h2.2.2.1, h2.2.2.2.2.2⟩⟩

/-- C4: coin-collection priority and no double-counting.  Per coin and
frame the awarded points are non-negative and sum to at most 1; an
expired-or-alive coin that any source overlaps is removed; an alive coin
overlapping the ball is collected by the ball alone, the point going to
the side `last_ball_hit` records and nobody when it is `None`, whatever
the paddles do; only otherwise does a left-paddle overlap score left,
and only then a right-paddle overlap score right; and per frame the coin
phase raises the total score by at most the number of active coins. -/
theorem c4_coin_priority :
    (∀ (cw ch : ℤ) (bx byq : ℚ) (ly ry : ℤ) (last : LastHit) (c : Coin),
        0 ≤ (processCoin cw ch bx byq ly ry last c).2.1 ∧
        0 ≤ (processCoin cw ch bx byq ly ry last c).2.2 ∧
        (processCoin cw ch bx byq ly ry last c).2.1 +
            (processCoin cw ch bx byq ly ry last c).2.2 ≤ 1 ∧
        ((checkCircleRectCollision bx byq BALL_RADIUS (coinRect cw ch c) = true ∨
          checkRectRectCollision (leftPaddleRect ly) (coinRect cw ch c) = true ∨
          checkRectRectCollision (rightPaddleRect ry) (coinRect cw ch c) = true) →
            (processCoin cw ch bx byq ly ry last c).1 = none)) ∧
    (∀ (cw ch : ℤ) (bx byq : ℚ) (ly ry : ℤ) (last : LastHit) (c : Coin),
        ¬ c.timer - 1 ≤ 0 →
        checkCircleRectCollision bx byq BALL_RADIUS (coinRect cw ch c) = true →
        (last = LastHit.LeftPaddle →
            processCoin cw ch bx byq ly ry last c = (none, 1, 0)) ∧
        (last = LastHit.RightPaddle →
            processCoin cw ch bx byq ly ry last c = (none, 0, 1)) ∧
        (last = LastHit.None →
            processCoin cw ch bx byq ly ry last c = (none, 0, 0))) ∧
    (∀ (cw ch : ℤ) (bx byq : ℚ) (ly ry : ℤ) (last : LastHit) (c : Coin),
        ¬ c.timer - 1 ≤ 0 →
        checkCircleRectCollision bx byq BALL_RADIUS (coinRect cw ch c) = false →
        checkRectRectCollision (leftPaddleRect ly) (coinRect cw ch c) = true →
        processCoin cw ch bx byq ly ry last c = (none, 1, 0)) ∧
    (∀ (cw ch : ℤ) (bx byq : ℚ) (ly ry : ℤ) (last : LastHit) (c : Coin),
        ¬ c.timer - 1 ≤ 0 →
        checkCircleRectCollision bx byq BALL_RADIUS (coinRect cw ch c) = false →
        checkRectRectCollision (leftPaddleRect ly) (coinRect cw ch c) = false →
        checkRectRectCollision (rightPaddleRect ry) (coinRect cw ch c) = true →
        processCoin cw ch bx byq ly ry last c = (none, 0, 1)) ∧
    (∀ (env : Env) (s : GameState),
        0 ≤ (coinPhaseE env s).2.1 ∧ 0 ≤ (coinPhaseE env s).2.2 ∧
        (coinPhaseE env s).2.1 + (coinPhaseE env s).2.2 ≤ (s.coins.length : ℤ)) := by
  have hbase : ∀ (cw ch : ℤ) (bx byq : ℚ) (ly ry : ℤ) (last : LastHit) (c : Coin),
      0 ≤ (processCoin cw ch bx byq ly ry last c).2.1 ∧
      0 ≤ (processCoin cw ch bx byq ly ry last c).2.2 ∧
      (processCoin cw ch bx byq ly ry last c).2.1 +
          (processCoin cw ch bx byq ly ry last c).2.2 ≤ 1 := by
    intro cw ch bx byq ly ry last c
    simp only [processCoin]
    cases last <;> split_ifs <;> norm_num
  refine ⟨?_, ?_, ?_, ?_, ?_⟩
  · intro cw ch bx byq ly ry last c
    refine ⟨(hbase cw ch bx byq ly ry last c).1, (hbase cw ch bx byq ly ry last c).2.1,
      (hbase cw ch bx byq ly ry last c).2.2, ?_⟩
    intro hover
    unfold processCoin
    split_ifs with he h1 h2 h3
    · rfl
    · cases last <;> rfl
    · rfl
    · rfl
    · exfalso
      rcases hover with hc | hc | hc
      · exact h1 hc
      · exact h2 hc
      · exact h3 hc
  · intro cw ch bx byq ly ry last c he hball
    unfold processCoin
    rw [if_neg he, if_pos hball]
    refine ⟨?_, ?_, ?_⟩ <;> intro hl <;> rw [hl]
  · intro cw ch bx byq ly ry last c he hball hleft
    unfold processCoin
    rw [if_neg he, if_neg (by rw [hball]; exact Bool.false_ne_true), if_pos hleft]
  · intro cw ch bx byq ly ry last c he hball hleft hright
    unfold processCoin
    rw [if_neg he, if_neg (by rw [hball]; exact Bool.false_ne_true),
        if_neg (by rw [hleft]; exact Bool.false_ne_true), if_pos hright]
  · intro env s
    unfold coinPhaseE
    simp only []
    have hlist : ∀ cs : List Coin,
        0 ≤ ((cs.map (processCoin env.coinW env.coinH s.ball_x s.ball_y s.leftPaddleY
            s.rightPaddleY s.last_ball_hit)).map (fun r => r.2.1)).sum ∧
        0 ≤ ((cs.map (processCoin env.coinW env.coinH s.ball_x s.ball_y s.leftPaddleY
            s.rightPaddleY s.last_ball_hit)).map (fun r => r.2.2)).sum ∧
        ((cs.map (processCoin env.coinW env.coinH s.ball_x s.ball_y s.leftPaddleY
            s.rightPaddleY s.last_ball_hit)).map (fun r => r.2.1)).sum +
        ((cs.map (processCoin env.coinW env.coinH s.ball_x s.ball_y s.leftPaddleY
            s.rightPaddleY s.last_ball_hit)).map (fun r => r.2.2)).sum ≤ (cs.length : ℤ) := by
      intro cs
      induction cs with
      | nil => simp
      | cons c rest ih =>
          simp only [List.map_cons, List.sum_cons, List.length_cons]
          have hc := hbase env.coinW env.coinH s.ball_x s.ball_y s.leftPaddleY
            s.rightPaddleY s.last_ball_hit c
          push_cast
          omega
    exact hlist s.coins

/-- Witness for C4 at concrete coins: one collected by the ball (point
to the left, the last-hit side), one collected by the left paddle, one
by the right paddle. -/
theorem c4_coin_priority_witness :
    processCoin 25 25 100 100 250 250 LastHit.LeftPaddle ⟨100, 100, 50⟩ = (none, 1, 0) ∧
    processCoin 25 25 400 400 250 250 LastHit.LeftPaddle ⟨10, 260, 50⟩ = (none, 1, 0) ∧
    processCoin 25 25 400 400 250 250 LastHit.None ⟨790, 260, 50⟩ = (none, 0, 1) := by
  have hb1 : checkCircleRectCollision 100 100 BALL_RADIUS (coinRect 25 25 ⟨100, 100, 50⟩) =
      true := by
    norm_num [checkCircleRectCollision, coinRect, truncQ, BALL_RADIUS, BALL_DIAMETER]
  have hb2 : checkCircleRectCollision 400 400 BALL_RADIUS (coinRect 25 25 ⟨10, 260, 50⟩) =
      false := by
    norm_num [checkCircleRectCollision, coinRect, truncQ, BALL_RADIUS, BALL_DIAMETER]
  have hl2 : checkRectRectCollision (leftPaddleRect 250) (coinRect 25 25 ⟨10, 260, 50⟩) =
      true := by
    norm_num [checkRectRectCollision, leftPaddleRect, coinRect, truncQ, PADDLE_WIDTH,
      PADDLE_HEIGHT]
  have hb3 : checkCircleRectCollision 400 400 BALL_RADIUS (coinRect 25 25 ⟨790, 260, 50⟩) =
      false := by
    norm_num [checkCircleRectCollision, coinRect, truncQ, BALL_RADIUS, BALL_DIAMETER]
  have hl3 : checkRectRectCollision (leftPaddleRect 250) (coinRect 25 25 ⟨790, 260, 50⟩) =
      false := by
    norm_num [checkRectRectCollision, leftPaddleRect, coinRect, truncQ, PADDLE_WIDTH,
      PADDLE_HEIGHT]
  have hr3 : checkRectRectCollision (rightPaddleRect 250) (coinRect 25 25 ⟨790, 260, 50⟩) =
      true := by
    norm_num [checkRectRectCollision, rightPaddleRect, coinRect, truncQ, PADDLE_WIDTH,
      PADDLE_HEIGHT, WINDOW_WIDTH]
  refine ⟨?_, ?_, ?_⟩
  · exact ((c4_coin_priority.2.1 25 25 100 100 250 250 LastHit.LeftPaddle ⟨100, 100, 50⟩
      (by norm_num) hb1).1 rfl)
  · exact c4_coin_priority.2.2.1 25 25 400 400 250 250 LastHit.LeftPaddle ⟨10, 260, 50⟩
      (by norm_num) hb2 hl2
  · exact c4_coin_priority.2.2.2.1 25 25 400 400 250 250 LastHit.None ⟨790, 260, 50⟩
      (by norm_num) hb3 hl3 hr3

/-- C7: any angle the rejection loop can return satisfies the band
conditions, and the direction built from it is exactly
`(cos angle, sin angle)` — the normalization divides by a magnitude that
is always 1 — a unit vector with both components of magnitude at
least 0.2, in particular nonzero.  The launch handler installs a
direction only on a click that lands within the ball's radius while the
velocity is exactly zero, and it then also resets speed and boost
timer; in every other case it leaves the state untouched. -/
theorem c7_launch_direction :
    (∀ angle : ℝ, acceptAngle angle →
        launchDirReal angle = (Real.cos angle, Real.sin angle) ∧
        (launchDirReal angle).1 ^ 2 + (launchDirReal angle).2 ^ 2 = 1 ∧
        0.2 ≤ |(launchDirReal angle).1| ∧ 0.2 ≤ |(launchDirReal angle).2| ∧
        (launchDirReal angle).1 ≠ 0 ∧ (launchDirReal angle).2 ≠ 0) ∧
    (∀ (dir : ℚ × ℚ) (mx my : ℤ) (s : GameState),
        ¬ (s.ball_dx = 0 ∧ s.ball_dy = 0 ∧
            ((mx : ℚ) - s.ball_x) ^ 2 + ((my : ℚ) - s.ball_y) ^ 2 ≤ (BALL_RADIUS : ℚ) ^ 2) →
        launch dir mx my s = s) ∧
    (∀ (dir : ℚ × ℚ) (mx my : ℤ) (s : GameState),
        s.ball_dx = 0 → s.ball_dy = 0 →
        ((mx : ℚ) - s.ball_x) ^ 2 + ((my : ℚ) - s.ball_y) ^ 2 ≤ (BALL_RADIUS : ℚ) ^ 2 →
        (launch dir mx my s).ball_dx = dir.1 ∧ (launch dir mx my s).ball_dy = dir.2 ∧
        (launch dir mx my s).current_ball_speed = INITIAL_BALL_SPEED ∧
        (launch dir mx my s).ball_boost_timer = 0) := by
  refine ⟨?_, ?_, ?_⟩
  · intro angle ha
    unfold acceptAngle at ha
    push_neg at ha
    obtain ⟨hs, hc⟩ := ha
    have hone : Real.cos angle * Real.cos angle + Real.sin angle * Real.sin angle = 1 := by
      have := Real.cos_sq_add_sin_sq angle
      nlinarith [this]
    have heq : launchDirReal angle = (Real.cos angle, Real.sin angle) := by
      simp only [launchDirReal]
      rw [hone, Real.sqrt_one]
      norm_num
    refine ⟨heq, ?_, ?_, ?_, ?_, ?_⟩
    · rw [heq]
      have h1 := Real.cos_sq_add_sin_sq angle
      exact h1
    · rw [heq]; exact hc
    · rw [heq]; exact hs
    · rw [heq]
      show Real.cos angle ≠ 0
      intro hz
      rw [hz] at hc
      norm_num at hc
    · rw [heq]
      show Real.sin angle ≠ 0
      intro hz
      rw [hz] at hs
      norm_num at hs
  · intro dir mx my s hgate
    unfold launch
    rw [if_neg hgate]
  · intro dir mx my s h1 h2 h3
    unfold launch
    rw [if_pos ⟨h1, h2, h3⟩]
    exact ⟨rfl, rfl, rfl, rfl⟩

/-- Witness for C7 at angle π/4 (|sin| = |cos| = √2/2 ≥ 0.2), a click
off a moving ball (ignored), and a click on the stationary center
ball. -/
theorem c7_launch_direction_witness :
    acceptAngle (Real.pi / 4) ∧
    (launchDirReal (Real.pi / 4)).1 ^ 2 + (launchDirReal (Real.pi / 4)).2 ^ 2 = 1 ∧
    0.2 ≤ |(launchDirReal (Real.pi / 4)).1| ∧
    launch (3/5, 4/5) 0 0 c2LeftState = c2LeftState ∧
    (launch (3/5, 4/5) 400 300 initialState).ball_dx = 3/5 := by
  have hacc : acceptAngle (Real.pi / 4) := by
    unfold acceptAngle
    push_neg
    rw [Real.sin_pi_div_four, Real.cos_pi_div_four]
    constructor <;>
      · rw [abs_of_nonneg (by positivity)]
        nlinarith [Real.sq_sqrt (by norm_num : (0:ℝ) ≤ 2), Real.sqrt_nonneg 2]
  have h1 := c7_launch_direction.1 (Real.pi / 4) hacc
  have h2 := c7_launch_direction.2.1 (3/5, 4/5) 0 0 c2LeftState
    (by
      intro hq
      have := hq.1
      norm_num [c2LeftState] at this)
  have h3 := c7_launch_direction.2.2 (3/5, 4/5) 400 300 initialState rfl rfl
    (by norm_num [initialState, cast_ball_radius, WINDOW_WIDTH, WINDOW_HEIGHT])
  exact ⟨hacc, h1.2.1, h1.2.2.1, h2, h3.1⟩

theorem truncQ_intCast (n : ℤ) : truncQ (n : ℚ) = n := by
  unfold truncQ
  split_ifs with h
  · rw [← Int.cast_neg, Int.floor_intCast, neg_neg]
  · rw [Int.floor_intCast]

theorem c9_step (t : ℤ) (h : 2 ≤ t) :
    coinPhase (idleEnv 0 0) (c9State t) = c9State (t - 1) := by
  have hball : checkCircleRectCollision (c9State t).ball_x (c9State t).ball_y BALL_RADIUS
      (coinRect (idleEnv 0 0).coinW (idleEnv 0 0).coinH (c9Coin t)) = false := by
    norm_num [checkCircleRectCollision, coinRect, truncQ, c9State, c9Coin, initialState,
      idleEnv, BALL_RADIUS, BALL_DIAMETER, WINDOW_WIDTH, WINDOW_HEIGHT]
  have hleft : checkRectRectCollision (leftPaddleRect (c9State t).leftPaddleY)
      (coinRect (idleEnv 0 0).coinW (idleEnv 0 0).coinH (c9Coin t)) = false := by
    norm_num [checkRectRectCollision, leftPaddleRect, coinRect, truncQ, c9State, c9Coin,
      initialState, idleEnv, PADDLE_WIDTH, PADDLE_HEIGHT, WINDOW_HEIGHT]
  have hright : checkRectRectCollision (rightPaddleRect (c9State t).rightPaddleY)
      (coinRect (idleEnv 0 0).coinW (idleEnv 0 0).coinH (c9Coin t)) = false := by
    norm_num [checkRectRectCollision, rightPaddleRect, coinRect, truncQ, c9State, c9Coin,
      initialState, idleEnv, PADDLE_WIDTH, PADDLE_HEIGHT, WINDOW_WIDTH, WINDOW_HEIGHT]
  have hp : processCoin (idleEnv 0 0).coinW (idleEnv 0 0).coinH (c9State t).ball_x
      (c9State t).ball_y (c9State t).leftPaddleY (c9State t).rightPaddleY
      (c9State t).last_ball_hit (c9Coin t) = (some (c9Coin (t - 1)), 0, 0) := by
    unfold processCoin
    rw [if_neg (show ¬ ((c9Coin t).timer - 1 ≤ 0) by simp only [c9Coin]; omega),
        if_neg (by rw [hball]; exact Bool.false_ne_true),
        if_neg (by rw [hleft]; exact Bool.false_ne_true),
        if_neg (by rw [hright]; exact Bool.false_ne_true)]
    rfl
  unfold coinPhase coinPhaseE
  have hcoins : (c9State t).coins = [c9Coin t] := rfl
  rw [hcoins, List.map_cons, List.map_nil, hp]
  simp only [List.filterMap_cons, List.filterMap_nil, List.map_cons, List.map_nil,
    List.sum_cons, List.sum_nil, add_zero]
  ext <;> simp [c9State, initialState, c9Coin]

theorem c9_iterate : ∀ k : ℕ, k ≤ 599 →
    (coinPhase (idleEnv 0 0))^[k] (c9State 600) = c9State (600 - (k : ℤ)) := by
  intro k
  induction k with
  | zero =>
      intro _
      norm_num
  | succ n ih =>
      intro hk
      rw [Function.iterate_succ_apply', ih (by omega),
          c9_step (600 - (n : ℤ)) (by omega)]
      have harg : (600 : ℤ) - (n : ℤ) - 1 = 600 - ((n + 1 : ℕ) : ℤ) := by
        push_cast
        ring
      rw [harg]

theorem c9_final : (coinPhase (idleEnv 0 0))^[600] (c9State 600) = initialState := by
  have h599 : (coinPhase (idleEnv 0 0))^[599] (c9State 600) = c9State 1 := by
    rw [c9_iterate 599 (by norm_num)]
    norm_num
  have hstep : (600 : ℕ) = 599 + 1 := rfl
  rw [hstep, Function.iterate_succ_apply', h599]
  have hp : processCoin (idleEnv 0 0).coinW (idleEnv 0 0).coinH (c9State 1).ball_x
      (c9State 1).ball_y (c9State 1).leftPaddleY (c9State 1).rightPaddleY
      (c9State 1).last_ball_hit (c9Coin 1) = (none, 0, 0) := by
    unfold processCoin
    rw [if_pos (show (c9Coin 1).timer - 1 ≤ 0 by norm_num [c9Coin])]
  unfold coinPhase coinPhaseE
  have hcoins : (c9State 1).coins = [c9Coin 1] := rfl
  rw [hcoins, List.map_cons, List.map_nil, hp]
  simp only [List.filterMap_cons, List.filterMap_nil, List.map_cons, List.map_nil,
    List.sum_cons, List.sum_nil, add_zero]
  ext <;> simp [c9State, initialState]

/-- C9: a coin's lifetime decrements by exactly 1 each frame it
survives; the decrement happens before any collision test, and a coin
whose decremented lifetime reaches 0 is removed at that point with no
points and no survivor — so it can never be collected on its expiry
frame.  In the concrete scenario a coin spawned with the full
600-frame lifetime and never collected ticks down through 599 frames of
the coin phase and is removed by the 600th, the scores never moving. -/
theorem c9_coin_lifetime :
    (∀ (cw ch : ℤ) (bx byq : ℚ) (ly ry : ℤ) (last : LastHit) (c : Coin),
        c.timer - 1 ≤ 0 →
        processCoin cw ch bx byq ly ry last c = (none, 0, 0)) ∧
    (∀ (cw ch : ℤ) (bx byq : ℚ) (ly ry : ℤ) (last : LastHit) (c : Coin),
        ¬ c.timer - 1 ≤ 0 →
        checkCircleRectCollision bx byq BALL_RADIUS (coinRect cw ch c) = false →
        checkRectRectCollision (leftPaddleRect ly) (coinRect cw ch c) = false →
        checkRectRectCollision (rightPaddleRect ry) (coinRect cw ch c) = false →
        processCoin cw ch bx byq ly ry last c =
          (some { c with timer := c.timer - 1 }, 0, 0)) ∧
    (∀ k : ℕ, k ≤ 599 →
        (coinPhase (idleEnv 0 0))^[k] (c9State 600) = c9State (600 - (k : ℤ))) ∧
    (coinPhase (idleEnv 0 0))^[600] (c9State 600) = initialState := by
  refine ⟨?_, ?_, c9_iterate, c9_final⟩
  · intro cw ch bx byq ly ry last c hexp
    unfold processCoin
    rw [if_pos hexp]
  · intro cw ch bx byq ly ry last c halive hball hleft hright
    unfold processCoin
    rw [if_neg halive,
        if_neg (by rw [hball]; exact Bool.false_ne_true),
        if_neg (by rw [hleft]; exact Bool.false_ne_true),
        if_neg (by rw [hright]; exact Bool.false_ne_true)]

/-- Witness for C9: an expired coin is dropped with no score; a clear
coin ticks from 50 to 49; one coin-phase frame takes the scenario coin
from 600 to 599. -/
theorem c9_coin_lifetime_witness :
    processCoin 25 25 400 400 250 250 LastHit.None ⟨600, 100, 1⟩ = (none, 0, 0) ∧
    processCoin 25 25 400 400 250 250 LastHit.None ⟨600, 100, 50⟩ =
      (some ⟨600, 100, 49⟩, 0, 0) ∧
    (coinPhase (idleEnv 0 0))^[1] (c9State 600) = c9State 599 := by
  have h1 := c9_coin_lifetime.1 25 25 400 400 250 250 LastHit.None ⟨600, 100, 1⟩
    (by norm_num)
  have hball : checkCircleRectCollision 400 400 BALL_RADIUS
      (coinRect 25 25 ⟨600, 100, 50⟩) = false := by
    norm_num [checkCircleRectCollision, coinRect, truncQ, BALL_RADIUS, BALL_DIAMETER]
  have hleft : checkRectRectCollision (leftPaddleRect 250)
      (coinRect 25 25 ⟨600, 100, 50⟩) = false := by
    norm_num [checkRectRectCollision, leftPaddleRect, coinRect, truncQ, PADDLE_WIDTH,
      PADDLE_HEIGHT]
  have hright : checkRectRectCollision (rightPaddleRect 250)
      (coinRect 25 25 ⟨600, 100, 50⟩) = false := by
    norm_num [checkRectRectCollision, rightPaddleRect, coinRect, truncQ, PADDLE_WIDTH,
      PADDLE_HEIGHT, WINDOW_WIDTH]
  have h2 := c9_coin_lifetime.2.1 25 25 400 400 250 250 LastHit.None ⟨600, 100, 50⟩
    (by norm_num) hball hleft hright
  have h3 := c9_coin_lifetime.2.2.1 1 (by norm_num)
  refine ⟨h1, h2, ?_⟩
  rw [h3]
  norm_num

theorem coinPhaseE_coins (env : Env) (s : GameState) :
    (coinPhaseE env s).1.coins =
      (s.coins.map (processCoin env.coinW env.coinH s.ball_x s.ball_y s.leftPaddleY
        s.rightPaddleY s.last_ball_hit)).filterMap (fun r => r.1) := rfl

theorem spawnTimer_through (env : Env) (r : Bool) (u : GameState) :
    (coinPhaseE env (spawnPhase env (boostPhase r u))).1.coin_spawn_timer =
      if u.coin_spawn_timer + 1 ≥ COIN_APPEAR_INTERVAL_FRAMES then 0
      else u.coin_spawn_timer + 1 := by
  rw [(coinPhaseE_keep _ _).2.2.2.2.2.2.2.2.1]
  have hb : (boostPhase r u).coin_spawn_timer = u.coin_spawn_timer :=
    (boostPhase_keep r u).2.2.2.2.2.2.2.1
  by_cases h : u.coin_spawn_timer + 1 ≥ COIN_APPEAR_INTERVAL_FRAMES
  · rw [spawnPhase_trigger env _ (by rw [hb]; exact h), if_pos h]
  · rw [spawnPhase_skip env _ (by rw [hb]; exact h), if_neg h]
    show (boostPhase r u).coin_spawn_timer + 1 = _
    rw [hb]

theorem step_spawn_timer (env : Env) (s : GameState) :
    (step env s).coin_spawn_timer =
      if s.coin_spawn_timer + 1 ≥ COIN_APPEAR_INTERVAL_FRAMES then 0
      else s.coin_spawn_timer + 1 := by
  unfold step
  simp only [stepE]
  rw [spawnTimer_through]
  have hM : (missPhase env
      (paddlePhase (wallPhase (integratePhase (paddleMovePhase env s))).1).1).1.coin_spawn_timer
      = s.coin_spawn_timer := by
    rw [(missPhase_keep _ _).2.2.2, (paddlePhase_keep _).2.2.2.2.2.2.2,
        (frontPhases_keep _ _).2.2.2.2.2.2.2.1]
  rw [hM]

theorem step_coins_empty (env : Env) (s : GameState) (h1 : s.coins = [])
    (h2 : ¬ s.coin_spawn_timer + 1 ≥ COIN_APPEAR_INTERVAL_FRAMES) :
    (step env s).coins = [] := by
  unfold step
  simp only [stepE]
  rw [coinPhaseE_coins]
  have hM : (missPhase env
      (paddlePhase (wallPhase (integratePhase (paddleMovePhase env s))).1).1).1.coin_spawn_timer
      = s.coin_spawn_timer := by
    rw [(missPhase_keep _ _).2.2.2, (paddlePhase_keep _).2.2.2.2.2.2.2,
        (frontPhases_keep _ _).2.2.2.2.2.2.2.1]
  have hMc : (missPhase env
      (paddlePhase (wallPhase (integratePhase (paddleMovePhase env s))).1).1).1.coins
      = s.coins := by
    rw [(missPhase_keep _ _).2.2.1, (paddlePhase_keep _).2.2.2.2.2.2.1,
        (frontPhases_keep _ _).2.2.2.2.2.2.1]
  have hb : (boostPhase ((wallPhase (integratePhase (paddleMovePhase env s))).2 ||
      (paddlePhase (wallPhase (integratePhase (paddleMovePhase env s))).1).2.1 ||
      (paddlePhase (wallPhase (integratePhase (paddleMovePhase env s))).1).2.2)
      (missPhase env
        (paddlePhase (wallPhase (integratePhase (paddleMovePhase env s))).1).1).1).coin_spawn_timer
      = s.coin_spawn_timer := by
    rw [(boostPhase_keep _ _).2.2.2.2.2.2.2.1, hM]
  have hbc : (boostPhase ((wallPhase (integratePhase (paddleMovePhase env s))).2 ||
      (paddlePhase (wallPhase (integratePhase (paddleMovePhase env s))).1).2.1 ||
      (paddlePhase (wallPhase (integratePhase (paddleMovePhase env s))).1).2.2)
      (missPhase env
        (paddlePhase (wallPhase (integratePhase (paddleMovePhase env s))).1).1).1).coins
      = s.coins := by
    rw [(boostPhase_keep _ _).2.2.2.2.2.2.1, hMc]
  rw [spawnPhase_skip env _ (by rw [hb]; exact h2)]
  show ((boostPhase _ _).coins.map _).filterMap _ = []
  rw [hbc, h1]
  rfl

theorem c8_idle_step (rx ry : ℕ) (n : ℤ) (h : n + 1 < COIN_APPEAR_INTERVAL_FRAMES) :
    step (idleEnv rx ry) (idleState n) = idleState (n + 1) := by
  have hno : ¬ ((300 : ℤ) ≤ n + 1) := by
    simp only [COIN_APPEAR_INTERVAL_FRAMES] at h
    omega
  unfold step
  simp only [stepE]
  norm_num [paddleMovePhase, integratePhase, wallPhase, paddlePhase, leftHitTest,
    rightHitTest, checkCircleRectCollision, leftPaddleRect, rightPaddleRect, missPhase,
    boostPhase, boostApply, boostTick, spawnPhase, coinPhaseE, movePaddle, idleState,
    initialState, idleEnv, WINDOW_WIDTH, WINDOW_HEIGHT, BALL_RADIUS, BALL_DIAMETER,
    PADDLE_WIDTH, PADDLE_HEIGHT, PADDLE_SPEED, INITIAL_BALL_SPEED,
    COIN_APPEAR_INTERVAL_FRAMES, hno]

theorem c8_idle_run (rx ry : ℕ) : ∀ n : ℕ, n ≤ 299 →
    (step (idleEnv rx ry))^[n] initialState = idleState (n : ℤ) := by
  intro n
  induction n with
  | zero =>
      intro _
      show initialState = idleState 0
      rfl
  | succ n ih =>
      intro h
      rw [Function.iterate_succ_apply', ih (by omega),
          c8_idle_step rx ry (n : ℤ)
            (by simp only [COIN_APPEAR_INTERVAL_FRAMES]; omega)]
      have harg : ((n : ℤ)) + 1 = (((n + 1 : ℕ)) : ℤ) := by push_cast; ring
      rw [harg]

theorem c8_spawn_bounds (env : Env) (hw0 : 0 ≤ env.coinW)
    (hw1 : env.coinW < WINDOW_WIDTH - 2 * PADDLE_WIDTH)
    (hh0 : 0 ≤ env.coinH) (hh1 : env.coinH < WINDOW_HEIGHT) :
    PADDLE_WIDTH ≤ newCoinX env - env.coinW / 2 ∧
    newCoinX env - env.coinW / 2 + env.coinW ≤ WINDOW_WIDTH - PADDLE_WIDTH ∧
    0 ≤ newCoinY env - env.coinH / 2 ∧
    newCoinY env - env.coinH / 2 + env.coinH ≤ WINDOW_HEIGHT := by
  unfold newCoinX newCoinY WINDOW_WIDTH WINDOW_HEIGHT PADDLE_WIDTH at *
  have h1 : 0 ≤ (env.spawnRX : ℤ) % (800 - 2 * 20 - env.coinW) :=
    Int.emod_nonneg _ (by omega)
  have h2 : (env.spawnRX : ℤ) % (800 - 2 * 20 - env.coinW) < 800 - 2 * 20 - env.coinW :=
    Int.emod_lt_of_pos _ (by omega)
  have h3 : 0 ≤ (env.spawnRY : ℤ) % (600 - env.coinH) :=
    Int.emod_nonneg _ (by omega)
  have h4 : (env.spawnRY : ℤ) % (600 - env.coinH) < 600 - env.coinH :=
    Int.emod_lt_of_pos _ (by omega)
  omega

theorem c8_coinRect_eval (rx ry : ℕ) :
    coinRect 25 25 (newCoin (idleEnv rx ry)) =
      ⟨newCoinX (idleEnv rx ry) - 12, newCoinY (idleEnv rx ry) - 12, 25, 25⟩ := by
  unfold coinRect newCoin
  have hx : (((newCoinX (idleEnv rx ry) : ℤ) : ℚ)) - (((25 : ℤ) / 2 : ℤ) : ℚ) =
      ((newCoinX (idleEnv rx ry) - 12 : ℤ) : ℚ) := by
    push_cast
    norm_num
  have hy : (((newCoinY (idleEnv rx ry) : ℤ) : ℚ)) - (((25 : ℤ) / 2 : ℤ) : ℚ) =
      ((newCoinY (idleEnv rx ry) - 12 : ℤ) : ℚ) := by
    push_cast
    norm_num
  rw [hx, hy, truncQ_intCast, truncQ_intCast]

theorem c8_newCoinX_bounds (rx ry : ℕ) :
    20 ≤ newCoinX (idleEnv rx ry) - 12 ∧ newCoinX (idleEnv rx ry) - 12 + 25 ≤ 779 := by
  simp only [newCoinX, idleEnv, WINDOW_WIDTH, PADDLE_WIDTH]
  have h1 : 0 ≤ (rx : ℤ) % (800 - 2 * 20 - 25) := Int.emod_nonneg _ (by omega)
  have h2 : (rx : ℤ) % (800 - 2 * 20 - 25) < 800 - 2 * 20 - 25 :=
    Int.emod_lt_of_pos _ (by omega)
  omega

theorem c8_no_paddle_overlap (rx ry : ℕ) (ly ry2 : ℤ) :
    checkRectRectCollision (leftPaddleRect ly) (coinRect 25 25 (newCoin (idleEnv rx ry))) =
      false ∧
    checkRectRectCollision (rightPaddleRect ry2) (coinRect 25 25 (newCoin (idleEnv rx ry))) =
      false := by
  rw [c8_coinRect_eval]
  obtain ⟨hb1, hb2⟩ := c8_newCoinX_bounds rx ry
  constructor
  · unfold checkRectRectCollision leftPaddleRect PADDLE_WIDTH PADDLE_HEIGHT
    apply decide_eq_false
    intro hP
    obtain ⟨hPx, hPy⟩ := hP
    simp only at hPx
    omega
  · unfold checkRectRectCollision rightPaddleRect PADDLE_WIDTH PADDLE_HEIGHT WINDOW_WIDTH
    apply decide_eq_false
    intro hP
    obtain ⟨hPx, hPy⟩ := hP
    simp only at hPx
    omega

theorem c8_coin_outcome (rx ry : ℕ) (ly ry2 : ℤ) :
    processCoin 25 25 400 300 ly ry2 LastHit.None (newCoin (idleEnv rx ry)) =
      if checkCircleRectCollision 400 300 BALL_RADIUS
          (coinRect 25 25 (newCoin (idleEnv rx ry))) = true then (none, 0, 0)
      else (some { newCoin (idleEnv rx ry) with timer := COIN_DURATION_FRAMES - 1 },
            0, 0) := by
  unfold processCoin
  rw [if_neg (show ¬ ((newCoin (idleEnv rx ry)).timer - 1 ≤ 0) by
    norm_num [newCoin, COIN_DURATION_FRAMES])]
  by_cases hb : checkCircleRectCollision 400 300 BALL_RADIUS
      (coinRect 25 25 (newCoin (idleEnv rx ry))) = true
  · rw [if_pos hb, if_pos hb]
  · rw [if_neg hb, if_neg hb,
        if_neg (by rw [(c8_no_paddle_overlap rx ry ly ry2).1]; exact Bool.false_ne_true),
        if_neg (by rw [(c8_no_paddle_overlap rx ry ly ry2).2]; exact Bool.false_ne_true)]
    rfl

theorem c8_spawn_step (rx ry : ℕ) :
    ((step (idleEnv rx ry))^[300] initialState).coins =
      (if checkCircleRectCollision 400 300 BALL_RADIUS
          (coinRect 25 25 (newCoin (idleEnv rx ry))) = true then []
       else [{ newCoin (idleEnv rx ry) with timer := COIN_DURATION_FRAMES - 1 }]) ∧
    ((step (idleEnv rx ry))^[300] initialState).coin_spawn_timer = 0 := by
  rw [show (300 : ℕ) = 299 + 1 from rfl, Function.iterate_succ_apply',
      c8_idle_run rx ry 299 (by norm_num)]
  have hco := c8_coin_outcome rx ry 250 250
  by_cases hb : checkCircleRectCollision 400 300 BALL_RADIUS
      (coinRect 25 25 (newCoin (idleEnv rx ry))) = true
  · rw [if_pos hb] at hco
    rw [if_pos hb]
    simp only [idleEnv] at hco
    unfold step
    simp only [stepE]
    norm_num [paddleMovePhase, integratePhase, wallPhase, paddlePhase, leftHitTest,
      rightHitTest, checkCircleRectCollision, leftPaddleRect, rightPaddleRect, missPhase,
      boostPhase, boostApply, boostTick, spawnPhase, coinPhaseE, movePaddle, idleState,
      initialState, idleEnv, WINDOW_WIDTH, WINDOW_HEIGHT, BALL_RADIUS, BALL_DIAMETER,
      PADDLE_WIDTH, PADDLE_HEIGHT, PADDLE_SPEED, INITIAL_BALL_SPEED,
      COIN_APPEAR_INTERVAL_FRAMES, hco]
  · rw [if_neg hb] at hco
    rw [if_neg hb]
    simp only [idleEnv] at hco
    unfold step
    simp only [stepE]
    norm_num [paddleMovePhase, integratePhase, wallPhase, paddlePhase, leftHitTest,
      rightHitTest, checkCircleRectCollision, leftPaddleRect, rightPaddleRect, missPhase,
      boostPhase, boostApply, boostTick, spawnPhase, coinPhaseE, movePaddle, idleState,
      initialState, idleEnv, WINDOW_WIDTH, WINDOW_HEIGHT, BALL_RADIUS, BALL_DIAMETER,
      PADDLE_WIDTH, PADDLE_HEIGHT, PADDLE_SPEED, INITIAL_BALL_SPEED,
      COIN_APPEAR_INTERVAL_FRAMES, hco]
    rfl

/-- C8 (amended): the spawn counter advances by exactly 1 per frame and
resets to 0 in the frame it reaches `COIN_APPEAR_INTERVAL_FRAMES` (300);
that frame appends exactly one coin with the full
`COIN_DURATION_FRAMES` lifetime, positioned (for any in-range sprite
size) so that its bounding box keeps off the paddle-width margins at the
left and right edges and its center keeps a half-sprite margin from the
top and bottom edges; from the initial state the coin list stays empty
through frames 1-299 — and after frame 300 it holds exactly the one new
coin provided the spawned coin's box does not overlap the stationary
center ball, the coin's lifetime already decremented once by the
same-frame lifecycle pass. -/
theorem c8_coin_spawn :
    (∀ (env : Env) (s : GameState),
        (step env s).coin_spawn_timer =
          if s.coin_spawn_timer + 1 ≥ COIN_APPEAR_INTERVAL_FRAMES then 0
          else s.coin_spawn_timer + 1) ∧
    (∀ (env : Env) (s : GameState),
        s.coin_spawn_timer + 1 ≥ COIN_APPEAR_INTERVAL_FRAMES →
        (spawnPhase env s).coins = s.coins ++ [newCoin env] ∧
        (spawnPhase env s).coin_spawn_timer = 0 ∧
        (newCoin env).timer = COIN_DURATION_FRAMES) ∧
    (∀ env : Env, 0 ≤ env.coinW → env.coinW < WINDOW_WIDTH - 2 * PADDLE_WIDTH →
        0 ≤ env.coinH → env.coinH < WINDOW_HEIGHT →
        PADDLE_WIDTH ≤ newCoinX env - env.coinW / 2 ∧
        newCoinX env - env.coinW / 2 + env.coinW ≤ WINDOW_WIDTH - PADDLE_WIDTH ∧
        0 ≤ newCoinY env - env.coinH / 2 ∧
        newCoinY env - env.coinH / 2 + env.coinH ≤ WINDOW_HEIGHT) ∧
    (∀ (rx ry : ℕ) (n : ℕ), n ≤ 299 →
        ((step (idleEnv rx ry))^[n] initialState).coins = [] ∧
        ((step (idleEnv rx ry))^[n] initialState).coin_spawn_timer = (n : ℤ)) ∧
    (∀ rx ry : ℕ,
        checkCircleRectCollision 400 300 BALL_RADIUS
            (coinRect 25 25 (newCoin (idleEnv rx ry))) = false →
        ((step (idleEnv rx ry))^[300] initialState).coins =
          [{ newCoin (idleEnv rx ry) with timer := COIN_DURATION_FRAMES - 1 }] ∧
        ((step (idleEnv rx ry))^[300] initialState).coins.length = 1 ∧
        ((step (idleEnv rx ry))^[300] initialState).coin_spawn_timer = 0) := by
  refine ⟨?_, ?_, ?_, ?_, ?_⟩
  · intro env s
    exact step_spawn_timer env s
  · intro env s h
    rw [spawnPhase_trigger env s h]
    exact ⟨rfl, rfl, rfl⟩
  · intro env h1 h2 h3 h4
    exact c8_spawn_bounds env h1 h2 h3 h4
  · intro rx ry n hn
    rw [c8_idle_run rx ry n hn]
    exact ⟨rfl, rfl⟩
  · intro rx ry hb
    obtain ⟨hc, ht⟩ := c8_spawn_step rx ry
    rw [if_neg (by rw [hb]; exact Bool.false_ne_true)] at hc
    rw [hc]
    exact ⟨rfl, rfl, ht⟩

/-- C8 counterexample: with spawn draws 368/288 the coin spawned in
frame 300 lands exactly on the stationary center ball, is collected by
the ball in the very same frame (no score, `last_ball_hit` is `None`),
and the coin list is empty after frame 300 — not of length 1 as the
claim states. -/
theorem c8_counterexample :
    ((step (idleEnv 368 288))^[300] initialState).coins = [] ∧
    ¬ ((step (idleEnv 368 288))^[300] initialState).coins.length = 1 := by
  have hb : checkCircleRectCollision 400 300 BALL_RADIUS
      (coinRect 25 25 (newCoin (idleEnv 368 288))) = true := by
    norm_num [checkCircleRectCollision, coinRect, truncQ, newCoin, newCoinX, newCoinY,
      idleEnv, BALL_RADIUS, BALL_DIAMETER, WINDOW_WIDTH, WINDOW_HEIGHT, PADDLE_WIDTH,
      COIN_DURATION_FRAMES]
  obtain ⟨hc, _⟩ := c8_spawn_step 368 288
  rw [if_pos hb] at hc
  rw [hc]
  norm_num

/-- Witness for C8: counter formula at startup, a concrete trigger
frame, bounds for the default sprite size, an idle run of 5 frames, and
the full 300-frame scenario with spawn draws 0/0 (coin at (32, 12),
clear of the center ball). -/
theorem c8_coin_spawn_witness :
    (step (idleEnv 0 0) initialState).coin_spawn_timer = 1 ∧
    (spawnPhase (idleEnv 0 0) (idleState 299)).coins = [newCoin (idleEnv 0 0)] ∧
    PADDLE_WIDTH ≤ newCoinX (idleEnv 0 0) - (idleEnv 0 0).coinW / 2 ∧
    ((step (idleEnv 0 0))^[5] initialState).coins = [] ∧
    ((step (idleEnv 0 0))^[300] initialState).coins.length = 1 := by
  have h1 := c8_coin_spawn.1 (idleEnv 0 0) initialState
  have h2 := c8_coin_spawn.2.1 (idleEnv 0 0) (idleState 299)
    (by norm_num [idleState, initialState, COIN_APPEAR_INTERVAL_FRAMES])
  have h3 := c8_coin_spawn.2.2.1 (idleEnv 0 0) (by norm_num [idleEnv])
    (by norm_num [idleEnv, WINDOW_WIDTH, PADDLE_WIDTH])
    (by norm_num [idleEnv]) (by norm_num [idleEnv, WINDOW_HEIGHT])
  have h4 := c8_coin_spawn.2.2.2.1 0 0 5 (by norm_num)
  have hbfalse : checkCircleRectCollision 400 300 BALL_RADIUS
      (coinRect 25 25 (newCoin (idleEnv 0 0))) = false := by
    norm_num [checkCircleRectCollision, coinRect, truncQ, newCoin, newCoinX, newCoinY,
      idleEnv, BALL_RADIUS, BALL_DIAMETER, WINDOW_WIDTH, WINDOW_HEIGHT, PADDLE_WIDTH,
      COIN_DURATION_FRAMES]
  have h5 := c8_coin_spawn.2.2.2.2 0 0 hbfalse
  refine ⟨?_, ?_, h3.1, h4.1, h5.2.1⟩
  · rw [h1]
    norm_num [initialState, COIN_APPEAR_INTERVAL_FRAMES]
  · rw [h2.1]
    show [] ++ [newCoin (idleEnv 0 0)] = [newCoin (idleEnv 0 0)]
    rw [List.nil_append]
